import Mathlib

/-!
Verification of `wordpress_setup.py` (a host-provisioning CLI for a
WordPress site behind an nginx reverse proxy).

The script is shallowly embedded: Python strings are `List Char`, the
`.env` parser / artifact renderers are pure Lean functions, and the
side-effecting pipeline (checks, artifact materialization, the action
state machine of `main`) is a state-passing interpreter over an explicit
file-system model with an effect trace.  External collaborators
(docker, nginx, certbot, git, DNS, the public-IP service) are oracles
supplied by an `Env` record: their answers are inputs, their invocations
are recorded in the trace.
-/

/-! ## Python strings -/

/-- Python strings are modelled as lists of characters. -/
abbrev Str := List Char

/-- Literal helper: the character list of a Lean string literal. -/
def S (s : String) : Str := s.data

/-- The whitespace set of Python `str.strip()`. -/
def isPySpace (c : Char) : Bool :=
  c = ' ' || c = '\t' || c = '\n' || c = '\r' || c = '\x0b' || c = '\x0c'

/-- Python `str.strip()`: drop leading and trailing whitespace. -/
def pyStrip (s : Str) : Str :=
  ((s.dropWhile isPySpace).reverse.dropWhile isPySpace).reverse

/-- Python `str.count(c)` for a single-character argument. -/
def pyCount (c : Char) (s : Str) : Nat := s.countP (· == c)

/-- Python `str.split(sep)` for a single-character separator:
splits at every occurrence, producing `n+1` parts for `n` separators. -/
def splitOnChar (c : Char) : Str → List Str
  | [] => [[]]
  | a :: rest =>
      match splitOnChar c rest with
      | [] => [[]]
      | h :: t => if a = c then [] :: h :: t else (a :: h) :: t

/-- Python `str.lower()` (ASCII contents only in this script). -/
def pyLower (s : Str) : Str := s.map Char.toLower

/-- Python `needle in hay` substring test. -/
def pyContains (hay needle : Str) : Bool :=
  (List.range (hay.length + 1)).any fun i => needle.isPrefixOf (hay.drop i)

/-! ## Python `int()` conversion -/

/-- `[0-9]` character class. -/
def isAsciiDigit (c : Char) : Bool := '0' ≤ c && c ≤ '9'

def digitVal (c : Char) : Nat := c.toNat - 48

/-- Parse a nonempty all-digit string. -/
def parseDigits (ds : Str) : Option Nat :=
  if ds = [] then none
  else if ds.all isAsciiDigit then
    some (ds.foldl (fun a c => 10 * a + digitVal c) 0)
  else none

def pyIntCore (t : Str) : Option Int :=
  match t with
  | [] => none
  | c :: rest =>
      if c = '-' then (parseDigits rest).map (fun n => -(n : Int))
      else if c = '+' then (parseDigits rest).map (fun n => (n : Int))
      else (parseDigits (c :: rest)).map (fun n => (n : Int))

/-- Python `int(s)`: surrounding whitespace is allowed, then an optional
sign and a nonempty digit string.  (CPython additionally allows single
underscores between digits; no grammar-validated input of this script can
contain one, so that case is not modelled.) -/
def pyInt (s : Str) : Option Int := pyIntCore (pyStrip s)

/-! ## Decimal rendering (Python `str()` of an `int`) -/

def digitChar (d : Nat) : Char := Char.ofNat (48 + d)

def natReprAux : Nat → Nat → Str
  | 0, _ => []
  | fuel + 1, n =>
      if n < 10 then [digitChar n]
      else natReprAux fuel (n / 10) ++ [digitChar (n % 10)]

/-- Python `str(n)` for a natural number.  The first argument of
`natReprAux` only bounds the recursion depth; `n + 1` always suffices
because the recursion argument strictly decreases. -/
def natRepr (n : Nat) : Str := natReprAux (n + 1) n

def intRepr (n : Int) : Str :=
  if n < 0 then '-' :: natRepr n.natAbs else natRepr n.natAbs

/-! ## Python values and dicts

The configuration is a Python `dict` mapping string keys to values that
are strings or ints (`host_port` is converted to `int` in
`Actions.configure`).  Dicts are association lists; `dictSet` updates in
place or appends, matching Python insertion-order semantics. -/

inductive PyVal
  | s (v : Str)
  | i (v : Int)
deriving DecidableEq

/-- Python `str(v)`: how a value renders inside an f-string. -/
def pv2s : PyVal → Str
  | .s v => v
  | .i n => intRepr n

abbrev Dict := List (Str × PyVal)

def dictSet : Dict → Str → PyVal → Dict
  | [], k, v => [(k, v)]
  | (k', v') :: rest, k, v =>
      if k' = k then (k, v) :: rest else (k', v') :: dictSet rest k v

def dictGet? : Dict → Str → Option PyVal
  | [], _ => none
  | (k', v') :: rest, k => if k' = k then some v' else dictGet? rest k

def dictHas (d : Dict) (k : Str) : Bool := (dictGet? d k).isSome

/-- Python `del d[k]`. -/
def dictDel : Dict → Str → Dict
  | [], _ => []
  | (k', v') :: rest, k => if k' = k then rest else (k', v') :: dictDel rest k

/-! ## The validation regular expressions

`HOSTNAME_REGEX = ^([a-zA-Z0-9]+\.)*[a-zA-Z0-9]+$`
`PORT_REGEX     = ^[0-9]{1,5}$`
`PATH_REGEX     = ^([^ \t\n\\]|/[^ \t\n\\])*(/[^ \t\n\\])?$`

Each is used through `re.match(regex, arg)`.  The patterns are anchored
with `^...$`; in Python, `$` matches at the end of the string or just
before a single newline at the end of the string, which
`pyReFullDollar` reproduces around the core language of each pattern. -/

def isAsciiAlnum (c : Char) : Bool :=
  ('a' ≤ c && c ≤ 'z') || ('A' ≤ c && c ≤ 'Z') || ('0' ≤ c && c ≤ '9')

/-- Core language of `([a-zA-Z0-9]+\.)*[a-zA-Z0-9]+`: one or more
dot-separated nonempty alphanumeric labels (splitting on `.` inverts the
concatenation exactly). -/
def hostnameCore (s : Str) : Bool :=
  (splitOnChar '.' s).all fun lab => !lab.isEmpty && lab.all isAsciiAlnum

/-- Core language of `[0-9]{1,5}`. -/
def portCore (s : Str) : Bool :=
  1 ≤ s.length && s.length ≤ 5 && s.all isAsciiDigit

/-- Core language of `([^ \t\n\\]|/[^ \t\n\\])*(/[^ \t\n\\])?`: both
alternatives only produce characters outside `{space, tab, newline,
backslash}` (`/` itself is matched by the first alternative), so the
language is exactly the strings over that complement alphabet. -/
def pathCore (s : Str) : Bool :=
  s.all fun c => !(c = ' ' || c = '\t' || c = '\n' || c = '\\')

/-- `re.match` of an `^core$` pattern: the whole string matches `core`,
or the string ends in a newline and everything before it matches. -/
def pyReFullDollar (core : Str → Bool) (s : Str) : Bool :=
  core s || (s.getLast? = some '\n' && core s.dropLast)

def hostnameMatch : Str → Bool := pyReFullDollar hostnameCore
def portMatch : Str → Bool := pyReFullDollar portCore
def pathMatch : Str → Bool := pyReFullDollar pathCore

/-! ## `Checks.type_convertable` / `Actions.convert_argument` -/

/-- The target types actually used by the script (`str` and `int`). -/
inductive PyType
  | str
  | int
deriving DecidableEq

/-- `Checks.type_convertable(arg, T, regex)`: the optional regex must
match (via `re.match`) and `T(arg)` must not raise. -/
def typeConvertable (arg : Str) (T : PyType) (regex : Option (Str → Bool)) : Bool :=
  (match regex with | some r => r arg | none => true) &&
  (match T with | .str => true | .int => (pyInt arg).isSome)

/-- `Actions.convert_argument` restricted to the used types: `none` when
validation fails (in the script that raises `AssertionError`). -/
def convertArgument? (arg : Str) (T : PyType) (regex : Option (Str → Bool)) : Option PyVal :=
  if typeConvertable arg T regex then
    match T with
    | .str => some (.s arg)
    | .int => (pyInt arg).map .i
  else none

/-- The acceptance set the claim states, written from the spec's words:
the strings of 1 to 5 decimal digits. -/
def specPortStrings (s : Str) : Bool :=
  1 ≤ s.length && s.length ≤ 5 && s.all isAsciiDigit

/-! ## `read_dotenv` -/

def DOTENV_KEYS : List Str :=
  [S "DB_MNT", S "DB_ROOT_PASSWD", S "DB_PASSWD", S "HOST_PORT", S "HOSTNAME"]

/-- One iteration of the `for line in f` loop of `read_dotenv`: skip
blank and comment lines, reject lines without exactly one `=`, otherwise
store the stripped key/value pair. -/
def parseDotenvLine (d : Dict) (line : Str) : Except Str Dict :=
  if pyStrip line = [] then .ok d
  else if (pyStrip line).head? = some '#' then .ok d
  else if pyCount '=' line ≠ 1 then
    .error (S "Invalid line in .env file: " ++ line)
  else
    match splitOnChar '=' line with
    | [k, v] => .ok (dictSet d (pyStrip k) (.s (pyStrip v)))
    | _ => .error (S "Invalid line in .env file: " ++ line)

def readDotenvLines : Dict → List Str → Except Str Dict
  | d, [] => .ok d
  | d, l :: rest =>
      match parseDotenvLine d l with
      | .ok d' => readDotenvLines d' rest
      | .error e => .error e

/-- The renaming loop of `read_dotenv`: each required key must be
present; its value is re-inserted under the lowercase key and the
original entry deleted. -/
def renameKey (d : Dict) (k : Str) : Except Str Dict :=
  match dictGet? d k with
  | none => .error (S "Missing key in .env file: " ++ k)
  | some v => .ok (dictDel (dictSet d (pyLower k) v) k)

def renameKeys : Dict → List Str → Except Str Dict
  | d, [] => .ok d
  | d, k :: rest =>
      match renameKey d k with
      | .ok d' => renameKeys d' rest
      | .error e => .error e

/-- `read_dotenv()`, applied to the text of the `.env` file.  A raised
`AssertionError` is modelled as `.error`. -/
def read_dotenv (content : Str) : Except Str Dict :=
  match readDotenvLines [] (splitOnChar '\n' content) with
  | .error e => .error e
  | .ok d => renameKeys d DOTENV_KEYS


/-- Whether a parse attempt aborted (raised) rather than returned. -/
def isErr : Except Str Dict → Bool
  | .error _ => true
  | .ok _ => false

/-- A line the `read_dotenv` loop rejects: neither blank nor a comment,
and without exactly one `=`. -/
def badLine (l : Str) : Prop :=
  pyStrip l ≠ [] ∧ (pyStrip l).head? ≠ some '#' ∧ pyCount '=' l ≠ 1

instance (l : Str) : Decidable (badLine l) := by
  unfold badLine
  infer_instance

/-! ## Artifact renderers (the pure `generate_*` functions) -/

/-- `Actions.generate_dotenv`.  `tok1`/`tok2` stand for the values
produced by `secrets.token_urlsafe(16)` when a password is `None`. -/
def generate_dotenv (hostname : Str) (host_port : PyVal) (db_mnt : Str)
    (db_passwd db_root_passwd : Option Str) (tok1 tok2 : Str) : Str :=
  let dbp := db_passwd.getD tok1
  let dbrp := db_root_passwd.getD tok2
  S "DB_MNT=" ++ db_mnt ++
  S "\nDB_ROOT_PASSWD=" ++ dbrp ++
  S "\nDB_PASSWD=" ++ dbp ++
  S "\nHOST_PORT=" ++ pv2s host_port ++
  S "\nHOSTNAME=" ++ hostname

/-- `Actions.generate_dotgitignore`. -/
def generate_dotgitignore (db_mnt : Str) : Str :=
  S "# Ignore the database data folder\n" ++ db_mnt ++ S "/"

/-- `Actions.generate_docker_compose` (a constant template; the
`$\x7b...\x7d` placeholders are expanded by docker-compose at run time,
not by the script). -/
def generate_docker_compose : Str :=
  S "\nservices:\n    db:\n        image: mariadb:10.6.4-focal\n        command: '--default-authentication-plugin=mysql_native_password'\n        volumes:\n            - $\x7bDB_MNT\x7d:/var/lib/mysql\n        restart: always\n        environment:\n            - MYSQL_ROOT_PASSWORD=$\x7bDB_ROOT_PASSWD\x7d\n            - MYSQL_DATABASE=wordpress\n            - MYSQL_USER=wordpress\n            - MYSQL_PASSWORD=$\x7bDB_PASSWD\x7d\n        expose:\n            - 3306\n\n    wordpress:\n        image: wordpress:latest\n        ports:\n            - $\x7bHOST_PORT\x7d:80\n        restart: always\n        depends_on:\n            - db\n        environment:\n            - WORDPRESS_DB_HOST=db\n            - WORDPRESS_DB_USER=wordpress\n            - WORDPRESS_DB_PASSWORD=$\x7bDB_PASSWD\x7d\n            - WORDPRESS_DB_NAME=wordpress\n\nvolumes:\n    db_data:"

/-- `Actions.generate_nginx_conf`. -/
def generate_nginx_conf (hostname : Str) (host_port : PyVal) (internal_host : Str) : Str :=
  S "server \x7b\n    listen 80;\n    server_name " ++ hostname ++
  S ";\n\n    location / \x7b\n        proxy_pass http://" ++ internal_host ++
  S ":" ++ pv2s host_port ++
  S ";\n        proxy_redirect http://" ++ internal_host ++ S ":" ++ pv2s host_port ++
  S " https://" ++ hostname ++
  S ";\n\n        proxy_set_header X-Real-IP $remote_addr;\n        proxy_set_header X-Forwarded-For $proxy_add_x_forwarded_for;\n\n        proxy_set_header Host $host;\n\n        proxy_cookie_domain http://" ++
  internal_host ++ S ":" ++ pv2s host_port ++ S " " ++ hostname ++
  S ";\n        proxy_set_header X-Forwarded-Proto https;\n    \x7d\n\x7d"


/-! ## The side-effecting pipeline

File system, effect trace, and an interpreter monad.  `Env` is the
oracle for external collaborators: which tools are installed, what exit
status each shell command returns, how the DNS poll ends, whether the
hostname matches the machine's public IP, whether the working directory
is writable, and the two random tokens `secrets.token_urlsafe(16)`
would produce.  Every collaborator invocation and file mutation is
recorded in the trace. -/

inductive FsEntry
  | absent
  | file (content : Str)
  | dir
  | symlink (target : Str)
deriving DecidableEq

abbrev FS := List (Str × FsEntry)

def fsGet : FS → Str → FsEntry
  | [], _ => .absent
  | (q, e) :: rest, p => if q = p then e else fsGet rest p

def fsSet : FS → Str → FsEntry → FS
  | [], p, e => [(p, e)]
  | (q, e') :: rest, p, e =>
      if q = p then (p, e) :: rest else (q, e') :: fsSet rest p e

inductive Level
  | success
  | info
  | warn
  | error
deriving DecidableEq

inductive Effect
  | write (path content : Str)
  | append (path content : Str)
  | remove (path : Str)
  | copy (src dst : Str)
  | mklink (src dst : Str)
  | mkdir (path : Str)
  | run (cmd : Str)
  | readF (path : Str)
  | prompt (msg : Str)
  | log (lvl : Level) (msg : Str)
deriving DecidableEq

inductive Outcome (α : Type)
  | ok (a : α)
  | exited (code : Nat)
  | assertFail (msg : Str)
  | exc (msg : Str)
deriving DecidableEq

/-- How the DNS wait loop of `Checks.dns` ends: the hostname eventually
resolves, or the operator interrupts with CTRL+C (the loop has no other
exit). -/
inductive DnsEv
  | resolves
  | interrupt
deriving DecidableEq

structure Env where
  euid : Nat
  which : List Str
  rc : Str → Int
  dns : DnsEv
  ipMatches : Bool
  writable : Bool
  freshPw1 : Str
  freshPw2 : Str

structure St where
  fs : FS
  answers : List Str
  trace : List Effect
deriving DecidableEq

def M (α : Type) : Type := Env → St → Outcome α × St

def mpure {α : Type} (a : α) : M α := fun _ s => (.ok a, s)

def mbind {α β : Type} (x : M α) (f : α → M β) : M β := fun env s =>
  match x env s with
  | (.ok a, s') => f a env s'
  | (.exited n, s') => (.exited n, s')
  | (.assertFail m, s') => (.assertFail m, s')
  | (.exc m, s') => (.exc m, s')

instance : Monad M where
  pure := mpure
  bind := mbind

def emit (e : Effect) : M Unit := fun _ s =>
  (.ok (), { s with trace := s.trace ++ [e] })

def logM (lvl : Level) (msg : Str) : M Unit := emit (.log lvl msg)

def sysExit {α : Type} (n : Nat) : M α := fun _ s => (.exited n, s)

/-- `raise AssertionError(msg)`. -/
def raiseA {α : Type} (msg : Str) : M α := fun _ s => (.assertFail msg, s)

/-- Any other raised exception (EOFError, ValueError, FileNotFoundError,
KeyError, ...), caught only by `main`'s generic handler. -/
def pyRaise {α : Type} (msg : Str) : M α := fun _ s => (.exc msg, s)

def askEnv : M Env := fun env s => (.ok env, s)

def getSt : M St := fun _ s => (.ok s, s)

/-- `input()`: consume the next operator answer; at end of stream the
call raises EOFError, as a closed stdin does. -/
def readAnswer : M Str := fun _ s =>
  match s.answers with
  | [] => (.exc (S "EOFError"), s)
  | a :: rest => (.ok a, { s with answers := rest })

def inputM (msg : Str) : M Str := mbind (emit (.prompt msg)) fun _ => readAnswer

/-- `os.path.isfile` (follows one symlink level). -/
def isfileM (p : Str) : M Bool := fun _ s =>
  (.ok (match fsGet s.fs p with
        | .file _ => true
        | .symlink t => (match fsGet s.fs t with | .file _ => true | _ => false)
        | _ => false), s)

/-- `os.path.isdir` (follows one symlink level). -/
def isdirM (p : Str) : M Bool := fun _ s =>
  (.ok (match fsGet s.fs p with
        | .dir => true
        | .symlink t => (match fsGet s.fs t with | .dir => true | _ => false)
        | _ => false), s)

/-- `os.path.islink`. -/
def islinkM (p : Str) : M Bool := fun _ s =>
  (.ok (match fsGet s.fs p with | .symlink _ => true | _ => false), s)

/-- `os.path.exists` (a symlink exists when its target does). -/
def existsM (p : Str) : M Bool := fun _ s =>
  (.ok (match fsGet s.fs p with
        | .absent => false
        | .symlink t => (match fsGet s.fs t with | .absent => false | _ => true)
        | _ => true), s)

/-- `open(p, "w")` + `write`: PermissionError when the directory is not
writable, IsADirectoryError on a directory, else (over)write. -/
def writeFileM (p c : Str) : M Unit := fun env s =>
  if env.writable then
    match fsGet s.fs p with
    | .dir => (.exc (S "IsADirectoryError"), s)
    | _ => (.ok (), { s with fs := fsSet s.fs p (.file c),
                             trace := s.trace ++ [.write p c] })
  else (.exc (S "PermissionError"), s)

/-- `open(p, "a")` + `write`. -/
def appendFileM (p c : Str) : M Unit := fun env s =>
  if env.writable then
    match fsGet s.fs p with
    | .dir => (.exc (S "IsADirectoryError"), s)
    | .file old => (.ok (), { s with fs := fsSet s.fs p (.file (old ++ c)),
                                     trace := s.trace ++ [.append p c] })
    | _ => (.ok (), { s with fs := fsSet s.fs p (.file c),
                             trace := s.trace ++ [.append p c] })
  else (.exc (S "PermissionError"), s)

/-- `os.remove`. -/
def removeFileM (p : Str) : M Unit := fun _ s =>
  match fsGet s.fs p with
  | .absent => (.exc (S "FileNotFoundError"), s)
  | .dir => (.exc (S "IsADirectoryError"), s)
  | _ => (.ok (), { s with fs := fsSet s.fs p .absent,
                           trace := s.trace ++ [.remove p] })

/-- `open(p).read()`. -/
def readFileM (p : Str) : M Str := fun _ s =>
  match fsGet s.fs p with
  | .file c => (.ok c, { s with trace := s.trace ++ [.readF p] })
  | .symlink t =>
      (match fsGet s.fs t with
       | .file c => (.ok c, { s with trace := s.trace ++ [.readF p] })
       | _ => (.exc (S "FileNotFoundError"), s))
  | .absent => (.exc (S "FileNotFoundError"), s)
  | .dir => (.exc (S "IsADirectoryError"), s)

/-- `shutil.copy` (overwrites the destination). -/
def copyFileM (src dst : Str) : M Unit := fun env s =>
  match fsGet s.fs src with
  | .file c =>
      if env.writable then
        (.ok (), { s with fs := fsSet s.fs dst (.file c),
                          trace := s.trace ++ [.copy src dst] })
      else (.exc (S "PermissionError"), s)
  | _ => (.exc (S "FileNotFoundError"), s)

/-- `os.symlink src dst`. -/
def symlinkM (src dst : Str) : M Unit := fun _ s =>
  match fsGet s.fs dst with
  | .absent => (.ok (), { s with fs := fsSet s.fs dst (.symlink src),
                                 trace := s.trace ++ [.mklink src dst] })
  | _ => (.exc (S "FileExistsError"), s)

/-- `os.mkdir`. -/
def mkdirM (p : Str) : M Unit := fun _ s =>
  match fsGet s.fs p with
  | .absent => (.ok (), { s with fs := fsSet s.fs p .dir,
                                 trace := s.trace ++ [.mkdir p] })
  | _ => (.exc (S "FileExistsError"), s)

/-- `os.system` / `subprocess.run`: record the invocation, return the
exit status the environment assigns to the command. -/
def osSystem (cmd : Str) : M Int := fun env s =>
  (.ok (env.rc cmd), { s with trace := s.trace ++ [.run cmd] })

/-- `try: body except AssertionError as e: handler e`. -/
def tryCatchAssert {α : Type} (body : M α) (handler : Str → M α) : M α := fun env s =>
  match body env s with
  | (.assertFail m, s') => handler m env s'
  | r => r

/-- A bare `except:` that ignores the error (used around `os.remove` in
`revert_nginx_conf`; nothing inside can exit). -/
def tryCatchAll {α : Type} (body : M α) (handler : M α) : M α := fun env s =>
  match body env s with
  | (.assertFail _, s') => handler env s'
  | (.exc _, s') => handler env s'
  | r => r

/-! ## The `check` decorator -/

inductive CheckMode
  | throwError
  | throwWarn
  | exitMode
deriving DecidableEq

def matchLogLevel (mode : CheckMode) (result : Bool) : Level :=
  match mode with
  | .throwError | .exitMode => if result then .success else .error
  | .throwWarn => if result then .success else .warn

def throw_handler (mode : CheckMode) (result : Bool) (message : Option Str) : M Bool :=
  if result then mpure true
  else
    match mode with
    | .throwError => raiseA (message.getD (S "Check failed"))
    | .exitMode => sysExit 1
    | .throwWarn => mpure false

/-- The confirmation prompt of the wrapper; `silentG` is the value of
the module-level `SILENT` global at call time. -/
def interactive_handler (silentG : Bool) (mode : CheckMode) (result : Bool) : M Bool :=
  if silentG = false ∧ mode = .throwWarn ∧ result = false then do
    let ans ← inputM (S "Do you want to continue? [y/N]: ")
    if pyLower ans ≠ S "y" then do
      logM .error (S "Aborted by user")
      mpure false
    else mpure true
  else mpure result

/-- The `check` decorator wrapper.  Every decorated predicate in the
script returns a `(bool, message)` tuple, so the tuple branch is always
taken; no call site passes a `callback`, and the decorator's
`interactive` keyword is never read by the wrapper. -/
def runCheck (silentG : Bool) (mode : CheckMode) (printSuccess : Bool)
    (body : M (Bool × Str)) : M Bool := do
  let r ← body
  if r.1 = false ∨ printSuccess = true then
    logM (matchLogLevel mode r.1) r.2
  let r2 ← interactive_handler silentG mode r.1
  throw_handler mode r2 (some r.2)

/-- The module-level `SILENT` global as the check wrapper reads it.
`main` executes `SILENT = True` without a `global SILENT` declaration,
so Python creates a function-local binding and the module-level value
stays `False` for the whole process, whatever `--silent` was. -/
def moduleSilent (_argsSilent : Bool) : Bool := false

namespace Checks

def not_already_configured (sil : Bool) : M Bool :=
  runCheck sil .throwWarn true (do
    let a ← isfileM (S ".env")
    let b ← isfileM (S "docker-compose.yml")
    let c ← isfileM (S ".gitignore")
    if a || b || c then
      mpure (false, S "Files already present in the directory")
    else
      mpure (true, S "Current directory is clean"))

def files_generated (sil : Bool) : M Bool :=
  runCheck sil .throwError true (do
    let a ← isfileM (S ".env")
    let b ← isfileM (S "docker-compose.yml")
    let c ← isfileM (S ".gitignore")
    if !a || !b || !c then mpure (false, S "Files not generated")
    else mpure (true, S "Files generated"))

def nginx_config_installed (sil : Bool) (host : Str) : M Bool :=
  runCheck sil .throwError false (do
    let b ← isfileM (S "/etc/nginx/sites-available/" ++ host ++ S ".nginx.conf")
    if !b then mpure (false, S "Nginx configuration not installed")
    else mpure (true, S "Nginx configuration installed"))

def nginx_config_enabled (sil : Bool) (host : Str) : M Bool :=
  runCheck sil .throwError true (do
    let b ← islinkM (S "/etc/nginx/sites-enabled/" ++ host ++ S ".nginx.conf")
    if !b then mpure (false, S "Nginx configuration not enabled")
    else mpure (true, S "Nginx configuration enabled"))

def user_is_root (sil : Bool) : M Bool :=
  runCheck sil .throwError false (do
    let env ← askEnv
    if env.euid ≠ 0 then mpure (false, S "This script must be run as root")
    else mpure (true, S "Running as root"))

def whichCheck (sil : Bool) (tool : Str) (msgNo msgYes : Str) : M Bool :=
  runCheck sil .throwError false (do
    let env ← askEnv
    if !(env.which.contains tool) then mpure (false, msgNo)
    else mpure (true, msgYes))

def docker (sil : Bool) : M Bool :=
  whichCheck sil (S "docker") (S "Docker is not installed") (S "Docker is installed")

def docker_compose (sil : Bool) : M Bool :=
  whichCheck sil (S "docker-compose") (S "Docker Compose is not installed")
    (S "Docker Compose is installed")

def git (sil : Bool) : M Bool :=
  whichCheck sil (S "git") (S "Git is not installed") (S "Git is installed")

def nginx (sil : Bool) : M Bool :=
  whichCheck sil (S "nginx") (S "Nginx is not installed") (S "Nginx is installed")

def certbot (sil : Bool) : M Bool :=
  whichCheck sil (S "certbot") (S "Certbot is not installed") (S "Certbot is installed")

def systemd (sil : Bool) : M Bool :=
  whichCheck sil (S "systemctl") (S "Systemd is not installed") (S "Systemd is installed")

def docker_daemon (sil : Bool) : M Bool :=
  runCheck sil .throwError false (do
    let rc ← osSystem (S "docker info > /dev/null 2>&1")
    if !(rc = 0) then mpure (false, S "Docker is not running")
    else mpure (true, S "Docker is running"))

def nginx_test_config (sil : Bool) : M Bool :=
  runCheck sil .throwError false (do
    let rc ← osSystem (S "nginx -t")
    if rc ≠ 0 then mpure (false, S "Nginx configuration is invalid")
    else mpure (true, S "Nginx configuration is valid"))

/-- `Checks.dns_mismatch`: compares the resolved address with the
public-IP service answer; both network calls are summarised by the
`ipMatches` oracle. -/
def dns_mismatch (sil : Bool) (_hostname : Str) : M Bool :=
  runCheck sil .throwWarn true (do
    let env ← askEnv
    if !env.ipMatches then
      mpure (false, S "Hostname does not resolve to this machines public IP")
    else mpure (true, S "Hostname resolves to this machines public IP"))

/-- `Checks.dns`: polls until the hostname resolves (then chains into
`dns_mismatch`, whose result is discarded) or the operator interrupts;
either exit returns `True` to the wrapper. -/
def dns (sil : Bool) (hostname : Str) : M Bool :=
  runCheck sil .throwWarn true (do
    let env ← askEnv
    match env.dns with
    | .interrupt => mpure (true, S "Continuing without waiting for DNS to resolve")
    | .resolves => do
        let _ ← dns_mismatch sil hostname
        mpure (true, S "DNS is set up correctly"))

def current_folder_writeable (sil : Bool) : M Bool :=
  runCheck sil .throwError true (do
    let env ← askEnv
    if env.writable then do
      writeFileM (S "test") (S "test")
      removeFileM (S "test")
      mpure (true, S "Current folder is writeable")
    else
      -- open("test", "w") raised PermissionError, caught by the check body
      mpure (false, S "Current folder is not writeable"))

def file_exists (sil : Bool) (p : Str) : M Bool :=
  runCheck sil .throwError false (do
    let b ← existsM p
    if !b then mpure (false, S "File " ++ p ++ S " does not exist")
    else mpure (true, S "File " ++ p ++ S " exists"))

def conflicting_args (sil : Bool) (flags : List Bool) : M Bool :=
  runCheck sil .throwError false
    (mpure (if (flags.countP id) > 1 then (false, S "Conflicting arguments")
            else (true, S "No conflicting arguments")))

def type_convertable (sil : Bool) (arg : Str) (T : PyType)
    (regex : Option (Str → Bool)) : M Bool :=
  runCheck sil .throwError false
    (mpure (if typeConvertable arg T regex then (true, S "")
            else (false, S "Argument is not convertable to the target type")))

/-- `all(check() if callable(check) else check for check in checks)`:
the generator short-circuits at the first `False`. -/
def andAllM : List (M Bool) → M Bool
  | [] => mpure true
  | c :: rest => do
      let b ← c
      if b then andAllM rest else mpure false

/-- `Checks.perform_checks_exit`: evaluates the checks, exits 1 on a
`False` aggregate or a raised AssertionError.  Its own
`@check(THROW_ERROR)` wrapper is transparent on the successful path. -/
def perform_checks_exit (_sil : Bool) (checks : List (M Bool)) : M Bool :=
  tryCatchAssert
    (do
      let b ← andAllM checks
      if b then mpure true
      else do
        logM .error (S "Checks failed")
        sysExit 1)
    (fun m => do
      logM .error (S "Assertion failed: " ++ m)
      sysExit 1)

end Checks

/-! ## Actions -/

namespace Actions

def restart_nginx : M Unit := do
  logM .info (S "Restarting Nginx...")
  let _ ← osSystem (S "systemctl restart nginx")
  -- the exit status of the restart is ignored by the script
  logM .success (S "Nginx restarted")

def revert_nginx_conf (hostname : Str) : M Unit := do
  logM .info (S "Reverting Nginx configuration...")
  tryCatchAll
    (removeFileM (S "/etc/nginx/sites-enabled/" ++ hostname ++ S ".nginx.conf"))
    (mpure ())
  removeFileM (S "/etc/nginx/sites-available/" ++ hostname ++ S ".nginx.conf")
  logM .success (S "Nginx configuration reverted")

def create_sites_if_not_exists : M Unit := do
  let e1 ← existsM (S "/etc/nginx/sites-available")
  if !e1 then do
    mkdirM (S "/etc/nginx/sites-available")
    logM .info (S "Created sites-available")
  let e2 ← existsM (S "/etc/nginx/sites-enabled")
  if !e2 then do
    mkdirM (S "/etc/nginx/sites-enabled")
    logM .info (S "Created sites-enabled")

def create_nginx_conf (hostname : Str) (host_port : PyVal) (internal_host : Str) : M Unit := do
  let e ← existsM (hostname ++ S ".nginx.conf")
  let d ← isdirM (hostname ++ S ".nginx.conf")
  if e && d then raiseA (hostname ++ S ".nginx.conf is a directory")
  else do
    let f ← isfileM (hostname ++ S ".nginx.conf")
    if e && f then
      logM .warn (hostname ++ S ".nginx.conf already exists, skipping")
    else do
      writeFileM (hostname ++ S ".nginx.conf")
        (generate_nginx_conf hostname host_port internal_host)
      logM .success (S "Nginx configuration created")

def create_docker_compose : M Unit := do
  let e ← existsM (S "docker-compose.yml")
  let d ← isdirM (S "docker-compose.yml")
  if e && d then raiseA (S "docker-compose.yml is a directory")
  else do
    let f ← isfileM (S "docker-compose.yml")
    if e && f then
      logM .warn (S "docker-compose.yml already exists, skipping")
    else do
      writeFileM (S "docker-compose.yml") generate_docker_compose
      logM .success (S "Docker Compose configuration created")

def create_dotenv (hostname : Str) (host_port : PyVal) (db_mnt : Str)
    (db_passwd db_root_passwd : Option Str) : M Unit := do
  let e ← existsM (S ".env")
  let d ← isdirM (S ".env")
  if e && d then raiseA (S ".env is a directory")
  else do
    let f ← isfileM (S ".env")
    if e && f then
      logM .warn (S ".env file already exists, skipping")
    else do
      let env ← askEnv
      writeFileM (S ".env")
        (generate_dotenv hostname host_port db_mnt db_passwd db_root_passwd
          env.freshPw1 env.freshPw2)
      logM .success (S ".env file created")

def create_dotgitignore (db_mnt : Str) : M Unit := do
  let e ← existsM (S ".gitignore")
  let d ← isdirM (S ".gitignore")
  if e && d then raiseA (S ".gitignore is a directory")
  else do
    let f ← isfileM (S ".gitignore")
    if e && f then do
      let content ← readFileM (S ".gitignore")
      if pyContains content db_mnt then
        logM .warn (S "Database mount folder already ignored")
      else do
        logM .info (S "Appending to .gitignore")
        appendFileM (S ".gitignore") ('\n' :: generate_dotgitignore db_mnt)
        logM .success (S ".gitignore created")
    else do
      writeFileM (S ".gitignore") (generate_dotgitignore db_mnt)
      logM .success (S ".gitignore created")

def git_init : M Unit := do
  let e ← existsM (S ".git")
  let d ← isdirM (S ".git")
  if e && d then logM .warn (S "Git repository already exists")
  else do
    let _ ← osSystem (S "git init")
    -- the exit status of git init is ignored by the script
    mpure ()

def remove_git : M Unit := do
  let e ← existsM (S ".git")
  let d ← isdirM (S ".git")
  if !e || !d then logM .warn (S "No .git folder found to remove")
  else do
    let _ ← osSystem (S "rm -rf .git")
    logM .success (S "Removed .git")

def convert_argument (sil : Bool) (arg : Str) (T : PyType)
    (regex : Option (Str → Bool)) : M PyVal := do
  -- `Checks.type_convertable(arg, T, regex)` is evaluated while building
  -- the argument list of perform_checks_exit: on invalid input the
  -- AssertionError is raised here, before perform_checks_exit is entered
  let b ← Checks.type_convertable sil arg T regex
  let _ ← Checks.perform_checks_exit sil [mpure b]
  match convertArgument? arg T regex with
  | some v => mpure v
  | none => pyRaise (S "unreachable: type_convertable raised first")

/-- One retry loop of `Actions.get_user_input`.  The fuel only bounds
the recursion; each iteration consumes one operator answer, and
`input()` raises EOFError once the stream is exhausted, so
`answers.length + 1` suffices. -/
def getUserInputGo (sil : Bool) (T : PyType) (promptMsg : Str)
    (regex : Option (Str → Bool)) : Nat → M PyVal
  | 0 => do
      let _ ← inputM promptMsg
      pyRaise (S "EOFError")
  | fuel + 1 =>
      tryCatchAssert
        (do
          let a ← inputM promptMsg
          convert_argument sil a T regex)
        (fun _ => do
          logM .error (S "Invalid input")
          getUserInputGo sil T promptMsg regex fuel)

/-- `Actions.get_user_input` (the readline pre-filled default is a
terminal nicety: the operator's final submitted text is the consumed
answer). -/
def get_user_input (sil : Bool) (T : PyType) (promptMsg : Str)
    (regex : Option (Str → Bool)) : M PyVal := fun env s =>
  getUserInputGo sil T promptMsg regex (s.answers.length + 1) env s

def configure_interactive (sil : Bool) (_defaults : Dict) : M Dict := do
  let hostname ← get_user_input sil .str (S "Hostname: ") (some hostnameMatch)
  let host_port ← get_user_input sil .int (S "host_port: ") (some portMatch)
  let db_mnt ← get_user_input sil .str (S "Mount folder: ") (some pathMatch)
  let db_passwd ← get_user_input sil .str (S "Database password: ") none
  let db_root_passwd ← get_user_input sil .str (S "Database root password: ") none
  mpure [(S "hostname", hostname), (S "host_port", host_port), (S "db_mnt", db_mnt),
    (S "db_passwd", db_passwd), (S "db_root_passwd", db_root_passwd)]

/-- The configuration summary printed by `configure` (log text only). -/
def cfgSummary (d : Dict) : Str :=
  S "Configuration: " ++ pv2s ((dictGet? d (S "hostname")).getD (.s [])) ++
  S " " ++ pv2s ((dictGet? d (S "host_port")).getD (.s [])) ++
  S " " ++ pv2s ((dictGet? d (S "db_mnt")).getD (.s [])) ++
  S " " ++ pv2s ((dictGet? d (S "db_passwd")).getD (.s [])) ++
  S " " ++ pv2s ((dictGet? d (S "db_root_passwd")).getD (.s []))

structure Args where
  hostname : Str := S "localhost"
  host_port : Int := 8080
  db_mnt : Str := S "db_data"
  db_passwd : Option Str := none
  db_root_passwd : Option Str := none
  cleanup : Bool := false
  install : Bool := false
  interactive : Bool := false
  certbot : Bool := false
  uninstall : Bool := false
  silent : Bool := false

/-- `Actions.configure(args, install)`: builds the record from CLI
arguments (argparse already applied the built-in defaults), replaces it
wholesale with the parsed `.env` when that file exists, converts the
port to `int`, and finally lets interactive mode overwrite it. -/
def configure (sil : Bool) (args : Args) (install : Bool) : M Dict := do
  let env ← askEnv
  let existing0 : Dict :=
    [(S "hostname", .s args.hostname),
     (S "host_port", .i args.host_port),
     (S "db_mnt", .s args.db_mnt),
     (S "db_passwd", .s (args.db_passwd.getD env.freshPw1)),
     (S "db_root_passwd", .s (args.db_root_passwd.getD env.freshPw2))]
  let e ← existsM (S ".env")
  let f ← isfileM (S ".env")
  let existing ← if e && f then do
      logM .info (S ".env file found!")
      let content ← readFileM (S ".env")
      let d ← (match read_dotenv content with
               | .ok d => mpure d
               | .error msg => raiseA msg)
      logM .success (S "Read .env file")
      mpure d
    else mpure existing0
  let hp ← (match dictGet? existing (S "host_port") with
            | some (.i k) => mpure k
            | some (.s v) => (match pyInt v with
                              | some k => mpure k
                              | none => pyRaise (S "ValueError"))
            | none => pyRaise (S "KeyError"))
  let existing := dictSet existing (S "host_port") (.i hp)
  let existing ← if args.interactive then do
      logM .info (S "Entering interactive mode...")
      configure_interactive sil existing
    else mpure existing
  if e || install then
    logM .info (cfgSummary existing)
  mpure existing

/-- `options['hostname']` etc.: a missing key raises KeyError. -/
def optGet (options : Dict) (k : Str) : M PyVal :=
  match dictGet? options k with
  | some v => mpure v
  | none => pyRaise (S "KeyError")

/-- `make_configs(**options)`: the keyword unpacking requires the keys
to be exactly the five parameter names. -/
def make_configs (sil : Bool) (options : Dict) : M Unit := do
  if options.length = 5 ∧ dictHas options (S "hostname") = true ∧
      dictHas options (S "host_port") = true ∧ dictHas options (S "db_mnt") = true ∧
      dictHas options (S "db_passwd") = true ∧ dictHas options (S "db_root_passwd") = true
  then do
    let hostname ← optGet options (S "hostname")
    let host_port ← optGet options (S "host_port")
    let db_mnt ← optGet options (S "db_mnt")
    let db_passwd ← optGet options (S "db_passwd")
    let db_root_passwd ← optGet options (S "db_root_passwd")
    let _ ← Checks.perform_checks_exit sil
      [Checks.current_folder_writeable sil, Checks.not_already_configured sil]
    logM .info (S "Generating files...")
    create_dotgitignore (pv2s db_mnt)
    git_init
    create_docker_compose
    create_dotenv (pv2s hostname) host_port (pv2s db_mnt)
      (some (pv2s db_passwd)) (some (pv2s db_root_passwd))
    create_nginx_conf (pv2s hostname) host_port (S "localhost")
    logM .success (S "Files generated")
  else pyRaise (S "TypeError")

def docker_compose_down : M Unit := do
  logM .info (S "Stopping docker containers...")
  let rc ← osSystem (S "docker-compose down")
  if rc ≠ 0 then do
    logM .error (S "Failed to stop docker containers")
    sysExit 1
  else mpure ()
  logM .success (S "Docker containers stopped")

def isCwdNginxConf (p : Str) (e : FsEntry) : Bool :=
  !p.contains '/' && (match e with | .absent => false | _ => true) &&
    (S ".nginx.conf").isSuffixOf p

/-- `os.listdir('.')` filtered to `*.nginx.conf` (working-directory
entries are the paths without a slash). -/
def cwdNginxConfs (fs : FS) : List Str :=
  (fs.filter fun pe => isCwdNginxConf pe.1 pe.2).map Prod.fst

def removeAll : List Str → M Unit
  | [] => mpure ()
  | p :: rest => do
      removeFileM p
      removeAll rest

def cleanup : M Unit := do
  logM .info (S "Cleaning up...")
  logM .info (S "Stopping docker containers and removing volumes...")
  let rc ← osSystem (S "docker-compose down --volumes")
  if rc ≠ 0 then do
    logM .error (S "Failed to stop docker containers")
    sysExit 1
  else mpure ()
  logM .success (S "Docker containers stopped and volumes removed")
  let e1 ← existsM (S ".env")
  let f1 ← isfileM (S ".env")
  if e1 && f1 then removeFileM (S ".env")
  let e2 ← existsM (S "docker-compose.yml")
  let f2 ← isfileM (S "docker-compose.yml")
  if e2 && f2 then removeFileM (S "docker-compose.yml")
  let e3 ← existsM (S ".gitignore")
  let f3 ← isfileM (S ".gitignore")
  if e3 && f3 then removeFileM (S ".gitignore")
  remove_git
  let st ← getSt
  removeAll (cwdNginxConfs st.fs)
  logM .success (S "Files removed")
  logM .success (S "Cleanup complete")

def install (sil : Bool) (hostname : Str) : M Unit := do
  logM .info (S "Installing...")
  -- `*map(Checks.file_exists, required_files)` forces the three file
  -- checks while the argument tuple is built, before the other checks run
  let r1 ← Checks.file_exists sil (S "docker-compose.yml")
  let r2 ← Checks.file_exists sil (S ".env")
  let r3 ← Checks.file_exists sil (hostname ++ S ".nginx.conf")
  let _ ← Checks.perform_checks_exit sil
    [Checks.user_is_root sil, Checks.docker sil, Checks.docker_compose sil,
     Checks.docker_daemon sil, Checks.nginx sil, Checks.nginx_test_config sil,
     Checks.systemd sil, mpure r1, mpure r2, mpure r3]
  logM .info (S "Running docker-compose...")
  let rc ← osSystem (S "docker-compose up -d")
  if rc ≠ 0 then do
    -- subprocess.run(..., check=True) raised CalledProcessError
    logM .error (S "Failed to run docker-compose")
    sysExit 1
  else mpure ()
  logM .success (S "Docker-compose complete")
  logM .info (S "Creating sites-available and sites-enabled...")
  create_sites_if_not_exists
  logM .success (S "sites-available and sites-enabled created or already present")
  logM .info (S "Copying Nginx config...")
  copyFileM (hostname ++ S ".nginx.conf")
    (S "/etc/nginx/sites-available/" ++ hostname ++ S ".nginx.conf")
  logM .success (S "Nginx config copied")
  logM .info (S "Enabling site...")
  let e ← existsM (S "/etc/nginx/sites-enabled/" ++ hostname ++ S ".nginx.conf")
  if e then removeFileM (S "/etc/nginx/sites-enabled/" ++ hostname ++ S ".nginx.conf")
  symlinkM (S "/etc/nginx/sites-available/" ++ hostname ++ S ".nginx.conf")
    (S "/etc/nginx/sites-enabled/" ++ hostname ++ S ".nginx.conf")
  logM .success (S "Site enabled")
  logM .info (S "Reloading Nginx...")
  restart_nginx
  logM .success (S "Nginx reloaded")
  logM .success (S "Installation complete")

def uninstall (sil : Bool) (hostname : Str) : M Unit := do
  logM .info (S "Uninstalling...")
  -- `Checks.file_exists(path)` is invoked while the argument tuple of
  -- perform_checks_exit is built: a missing available-file raises here
  let r1 ← Checks.file_exists sil
    (S "/etc/nginx/sites-available/" ++ hostname ++ S ".nginx.conf")
  let _ ← Checks.perform_checks_exit sil
    [mpure r1, Checks.user_is_root sil, Checks.docker sil, Checks.docker_compose sil,
     Checks.docker_daemon sil, Checks.nginx sil, Checks.systemd sil]
  tryCatchAssert
    (do
      docker_compose_down
      revert_nginx_conf hostname
      restart_nginx)
    (fun _ => do
      logM .error (S "Failed to uninstall")
      sysExit 1)
  logM .success (S "Uninstall complete")

def certbot (sil : Bool) (hostname : Str) : M Unit := do
  let _ ← Checks.perform_checks_exit sil [Checks.nginx sil, Checks.certbot sil]
  let _ ← Checks.dns sil hostname
  logM .info (S "Running certbot...")
  let _ ← osSystem (S "certbot --nginx -d " ++ hostname)
  -- the exit status of the certbot invocation is ignored by the script
  logM .success (S "Certbot complete")

end Actions

/-! ## `main` -/

def mainBody (args : Actions.Args) : M Unit := do
  let sil := moduleSilent args.silent
  let without := !(args.install || args.uninstall || args.certbot || args.cleanup)
  let options ← Actions.configure sil args (args.install || without)
  let _ ← Checks.conflicting_args sil [args.install, args.uninstall]
  let _ ← Checks.conflicting_args sil [args.uninstall, args.certbot]
  if without then Actions.make_configs sil options
  if args.cleanup && !args.uninstall then Actions.cleanup
  if args.install then do
    Actions.make_configs sil options
    let h ← Actions.optGet options (S "hostname")
    Actions.install sil (pv2s h)
  if args.uninstall then do
    let h ← Actions.optGet options (S "hostname")
    Actions.uninstall sil (pv2s h)
    if args.cleanup then Actions.cleanup
    sysExit 0
  if args.certbot then do
    let h ← Actions.optGet options (S "hostname")
    let c1 ← Checks.nginx_config_installed sil (pv2s h)
    let c2 ← Checks.nginx_config_enabled sil (pv2s h)
    let _ ← Checks.perform_checks_exit sil [mpure c1, mpure c2]
    Actions.certbot sil (pv2s h)
  logM .success (S "All actions completed successfully")

/-- `main()` with its top-level handlers: AssertionError and any other
exception are logged and turn into `sys.exit(1)`; `sys.exit` codes pass
through; falling off the end exits 0. -/
def mainRun (args : Actions.Args) : M Unit := fun env s =>
  match mainBody args env s with
  | (.ok a, s') => (.ok a, s')
  | (.exited n, s') => (.exited n, s')
  | (.assertFail m, s') =>
      (.exited 1, { s' with trace := s'.trace ++ [.log .error (S "Assertion failed: " ++ m)] })
  | (.exc m, s') =>
      (.exited 1, { s' with trace := s'.trace ++ [.log .error (S "An error occurred: " ++ m)] })


/-! ## Concrete environments and states used in the concrete runs -/

/-- A fully healthy environment: root, all tools installed, every
command succeeds, DNS resolves and matches, directory writable. -/
def envAllOk : Env :=
  { euid := 0,
    which := [S "docker", S "docker-compose", S "git", S "nginx", S "certbot", S "systemctl"],
    rc := fun _ => 0,
    dns := .resolves,
    ipMatches := true,
    writable := true,
    freshPw1 := S "tok1",
    freshPw2 := S "tok2" }

/-- As `envAllOk`, but the proxy-daemon restart fails. -/
def envRestartFails : Env :=
  { envAllOk with rc := fun c => if c = S "systemctl restart nginx" then 1 else 0 }

/-- A persisted environment file used in concrete runs. -/
def dotenvPersisted : Str :=
  S "DB_MNT=db_data\nDB_ROOT_PASSWD=rootpw\nDB_PASSWD=userpw\nHOST_PORT=9090\nHOSTNAME=persisted.example"

def stWithDotenv : St :=
  { fs := [(S ".env", .file dotenvPersisted)], answers := [], trace := [] }

def emptySt : St := { fs := [], answers := [], trace := [] }


/-- Default-mode run with `--silent` in a directory that already holds a
persisted `.env`; the operator declines the confirmation prompt. -/
def stC2 : St :=
  { fs := [(S ".env", .file dotenvPersisted)], answers := [S "n"], trace := [] }


/-- As `envAllOk`, but `docker-compose up -d` fails. -/
def envUpFails : Env :=
  { envAllOk with rc := fun c => if c = S "docker-compose up -d" then 1 else 0 }

/-- As `envAllOk`, but `docker-compose down` fails. -/
def envDownFails : Env :=
  { envAllOk with rc := fun c => if c = S "docker-compose down" then 1 else 0 }

/-- A working directory holding the three files `install` requires. -/
def stInstallReady : St :=
  { fs := [(S "docker-compose.yml", .file generate_docker_compose),
           (S ".env", .file dotenvPersisted),
           (S "localhost.nginx.conf", .file (S "conf"))],
    answers := [], trace := [] }

/-- A system where the available-sites file for `localhost` is
installed but its enabled-sites symlink is missing. -/
def stUninstallReady : St :=
  { fs := [(S "/etc/nginx/sites-available/localhost.nginx.conf", .file (S "conf"))],
    answers := [], trace := [] }


/-- CLI argument record for a bare `--uninstall` invocation. -/
def argsUninstallOnly : Actions.Args := { uninstall := true }

/-- `true` for effects that are not external-tool invocations. -/
def notRun : Effect → Bool
  | .run _ => false
  | _ => true


/-- Every artifact path occupied by a directory. -/
def stAllDirs : St :=
  { fs := [(S "docker-compose.yml", .dir), (S ".env", .dir),
           (S "localhost.nginx.conf", .dir), (S ".gitignore", .dir)],
    answers := [], trace := [] }

/-- Every artifact path occupied by a regular file. -/
def stAllFiles : St :=
  { fs := [(S "docker-compose.yml", .file (S "x")), (S ".env", .file (S "x")),
           (S "localhost.nginx.conf", .file (S "x")), (S ".gitignore", .file (S "db_data"))],
    answers := [], trace := [] }


/-- CLI flags with an explicit hostname, non-interactive. -/
def argsC1 : Actions.Args := { hostname := S "cli.example" }

/-- Interactive mode requested. -/
def argsC1i : Actions.Args := { interactive := true }

/-- A persisted `.env` plus five first-try-valid interactive answers. -/
def stC1i : St :=
  { fs := [(S ".env", .file dotenvPersisted)],
    answers := [S "host.example", S "8081", S "mnt", S "pw", S "rpw"],
    trace := [] }


/-- Both `--install` and `--uninstall` requested. -/
def argsConflictIU : Actions.Args := { install := true, uninstall := true }


/-- As `envAllOk`, but `docker-compose down --volumes` fails. -/
def envVolFails : Env :=
  { envAllOk with rc := fun c => if c = S "docker-compose down --volumes" then 1 else 0 }

/-- Effects that neither mutate the file system nor invoke an external
collaborator (reads, prompts and log lines). -/
def benign : Effect → Bool
  | .write _ _ => false
  | .append _ _ => false
  | .remove _ => false
  | .copy _ _ => false
  | .mklink _ _ => false
  | .mkdir _ => false
  | .run _ => false
  | .readF _ => true
  | .prompt _ => true
  | .log _ _ => true

/-- A computation that performs no file mutation and no collaborator
invocation, never calls `sys.exit` itself, and leaves the file system
untouched. -/
def Tame {α : Type} (m : M α) : Prop :=
  ∀ env s, (∀ n, (m env s).1 ≠ .exited n) ∧
    (m env s).2.fs = s.fs ∧
    ∃ t, (m env s).2.trace = s.trace ++ t ∧ t.all benign = true

/-! ## Lemmas about the string helpers -/

theorem dropWhile_cons_of_neg {p : Char → Bool} {a : Char} {l : Str} (h : p a = false) :
    (a :: l).dropWhile p = a :: l := by
  simp [List.dropWhile, h]

theorem mem_of_getLast? {l : Str} {c : Char} (h : l.getLast? = some c) : c ∈ l := by
  have : c ∈ l.reverse.head? := by rw [List.head?_reverse]; simp [h]
  exact List.mem_reverse.mp (List.mem_of_mem_head? this)

theorem pyStrip_eq_self {s : Str}
    (h1 : ∀ c, s.head? = some c → isPySpace c = false)
    (h2 : ∀ c, s.getLast? = some c → isPySpace c = false) :
    pyStrip s = s := by
  cases s with
  | nil => rfl
  | cons a l =>
    have ha : isPySpace a = false := h1 a rfl
    unfold pyStrip
    rw [dropWhile_cons_of_neg ha]
    rcases hrev : (a :: l).reverse with _ | ⟨c, t⟩
    · exact absurd hrev (by simp)
    · have hc : (a :: l).getLast? = some c := by
        rw [← List.head?_reverse, hrev]; rfl
      rw [dropWhile_cons_of_neg (h2 c hc), ← hrev, List.reverse_reverse]

theorem pyStrip_ne_nil {s : Str} (h : pyStrip s = s) (hs : s ≠ []) : pyStrip s ≠ [] := by
  rw [h]; exact hs

theorem splitOnChar_ne_nil (c : Char) : ∀ l : Str, splitOnChar c l ≠ []
  | [] => by simp [splitOnChar]
  | a :: rest => by
      unfold splitOnChar
      rcases h : splitOnChar c rest with _ | ⟨hh, t⟩
      · simp
      · by_cases hac : a = c <;> simp [hac]

theorem splitOnChar_not_mem {c : Char} : ∀ {l : Str}, c ∉ l → splitOnChar c l = [l]
  | [], _ => rfl
  | a :: rest, h => by
      have har : c ∉ rest := fun hm => h (List.mem_cons_of_mem _ hm)
      have hne : a ≠ c := fun he => h (he ▸ List.mem_cons_self a rest)
      unfold splitOnChar
      rw [splitOnChar_not_mem har]
      simp [hne]

theorem splitOnChar_cons (c a : Char) (rest : Str) :
    splitOnChar c (a :: rest) =
      match splitOnChar c rest with
      | [] => [[]]
      | h :: t => if a = c then [] :: h :: t else (a :: h) :: t := rfl

theorem splitOnChar_append {c : Char} : ∀ {l : Str} (r : Str), c ∉ l →
    splitOnChar c (l ++ c :: r) = l :: splitOnChar c r
  | [], r, _ => by
      show splitOnChar c (c :: r) = [] :: splitOnChar c r
      rcases h : splitOnChar c r with _ | ⟨hh, t⟩
      · exact absurd h (splitOnChar_ne_nil c r)
      · rw [splitOnChar_cons, h]
        simp
  | a :: l, r, h => by
      have hal : c ∉ l := fun hm => h (List.mem_cons_of_mem _ hm)
      have hne : a ≠ c := fun he => h (he ▸ List.mem_cons_self a l)
      show splitOnChar c (a :: (l ++ c :: r)) = (a :: l) :: splitOnChar c r
      rw [splitOnChar_cons, splitOnChar_append r hal]
      simp [hne]

theorem pyCount_append (c : Char) (a b : Str) :
    pyCount c (a ++ b) = pyCount c a + pyCount c b :=
  List.countP_append _ a b

theorem pyCount_eq_zero {c : Char} {l : Str} (h : c ∉ l) : pyCount c l = 0 := by
  refine List.countP_eq_zero.mpr fun a ha hb => ?_
  have hac : a = c := by simpa using hb
  exact h (hac ▸ ha)

theorem pyCount_cons_self (c : Char) (l : Str) :
    pyCount c (c :: l) = pyCount c l + 1 := by
  simp [pyCount, List.countP_cons]

theorem not_space_of_digit {c : Char} (h : isAsciiDigit c = true) : isPySpace c = false := by
  by_contra hc
  have hc' : isPySpace c = true := by
    cases hx : isPySpace c
    · exact absurd hx hc
    · rfl
  unfold isPySpace at hc'
  simp only [Bool.or_eq_true, decide_eq_true_eq] at hc'
  rcases hc' with ((((h1 | h1) | h1) | h1) | h1) | h1 <;>
    (subst h1; exact absurd h (by decide))

theorem digit_ne_dash {c : Char} (h : isAsciiDigit c = true) : c ≠ '-' := by
  intro he; subst he; exact absurd h (by decide)

theorem digit_ne_plus {c : Char} (h : isAsciiDigit c = true) : c ≠ '+' := by
  intro he; subst he; exact absurd h (by decide)

theorem digit_ne_newline {c : Char} (h : isAsciiDigit c = true) : c ≠ '\n' := by
  intro he; subst he; exact absurd h (by decide)

theorem digit_ne_eq {c : Char} (h : isAsciiDigit c = true) : c ≠ '=' := by
  intro he; subst he; exact absurd h (by decide)

/-! ## Lemmas about decimal rendering and `int()` parsing -/

theorem isAsciiDigit_digitChar {d : Nat} (h : d < 10) : isAsciiDigit (digitChar d) = true := by
  interval_cases d <;> decide

theorem digitVal_digitChar {d : Nat} (h : d < 10) : digitVal (digitChar d) = d := by
  interval_cases d <;> decide

theorem natReprAux_fuel : ∀ (f1 f2 n : Nat), n < f1 → n < f2 →
    natReprAux f1 n = natReprAux f2 n
  | 0, _, _, h1, _ => absurd h1 (Nat.not_lt_zero _)
  | _ + 1, 0, _, _, h2 => absurd h2 (Nat.not_lt_zero _)
  | f1 + 1, f2 + 1, n, h1, h2 => by
      unfold natReprAux
      by_cases h : n < 10
      · simp [h]
      · have hd1 : n / 10 < f1 := lt_of_lt_of_le (Nat.div_lt_self (by omega) (by omega))
          (Nat.lt_succ_iff.mp h1)
        have hd2 : n / 10 < f2 := lt_of_lt_of_le (Nat.div_lt_self (by omega) (by omega))
          (Nat.lt_succ_iff.mp h2)
        simp only [h, if_false]
        rw [natReprAux_fuel f1 f2 (n / 10) hd1 hd2]

theorem natRepr_eq (n : Nat) : natRepr n =
    if n < 10 then [digitChar n] else natRepr (n / 10) ++ [digitChar (n % 10)] := by
  show natReprAux (n + 1) n = _
  unfold natReprAux
  by_cases h : n < 10
  · simp [h]
  · simp only [h, if_false]
    rw [natReprAux_fuel n (n / 10 + 1) (n / 10)
      (Nat.div_lt_self (by omega) (by omega)) (Nat.lt_succ_self _)]
    rfl

theorem natRepr_all_digit (n : Nat) : (natRepr n).all isAsciiDigit = true := by
  induction n using Nat.strong_induction_on with
  | _ n ih =>
    rw [natRepr_eq]
    by_cases h : n < 10
    · simp [h, isAsciiDigit_digitChar h]
    · have hrec := ih (n / 10) (Nat.div_lt_self (by omega) (by omega))
      simp only [h, if_false, List.all_append]
      rw [hrec]
      simp [isAsciiDigit_digitChar (Nat.mod_lt n (by omega))]

theorem natRepr_ne_nil (n : Nat) : natRepr n ≠ [] := by
  rw [natRepr_eq]
  by_cases h : n < 10 <;> simp [h]

/-- Value computed by the digit fold, with an arbitrary accumulator. -/
theorem foldl_digits_append (a : Nat) (l : Str) (c : Char) :
    (l ++ [c]).foldl (fun a c => 10 * a + digitVal c) a =
      10 * (l.foldl (fun a c => 10 * a + digitVal c) a) + digitVal c := by
  rw [List.foldl_append]; rfl

theorem foldl_natRepr (n : Nat) :
    (natRepr n).foldl (fun a c => 10 * a + digitVal c) 0 = n := by
  induction n using Nat.strong_induction_on with
  | _ n ih =>
    rw [natRepr_eq]
    by_cases h : n < 10
    · simp [h, List.foldl, digitVal_digitChar h]
    · have hrec := ih (n / 10) (Nat.div_lt_self (by omega) (by omega))
      simp only [h, if_false]
      rw [foldl_digits_append, hrec, digitVal_digitChar (Nat.mod_lt n (by omega))]
      omega

theorem parseDigits_natRepr (n : Nat) : parseDigits (natRepr n) = some n := by
  unfold parseDigits
  simp [natRepr_ne_nil n, natRepr_all_digit n, foldl_natRepr n]

theorem pyStrip_of_all_digits {s : Str} (_hne : s ≠ [])
    (hall : s.all isAsciiDigit = true) : pyStrip s = s := by
  refine pyStrip_eq_self (fun c hc => ?_) (fun c hc => ?_)
  · exact not_space_of_digit (List.all_eq_true.mp hall c (List.mem_of_mem_head? (by simp [hc])))
  · exact not_space_of_digit (List.all_eq_true.mp hall c (mem_of_getLast? hc))

theorem pyIntCore_cons (c : Char) (rest : Str) :
    pyIntCore (c :: rest) =
      if c = '-' then (parseDigits rest).map (fun n => -(n : Int))
      else if c = '+' then (parseDigits rest).map (fun n => (n : Int))
      else (parseDigits (c :: rest)).map (fun n => (n : Int)) := rfl

theorem pyIntCore_natRepr (n : Nat) : pyIntCore (natRepr n) = some (n : Int) := by
  rcases hr : natRepr n with _ | ⟨c, rest⟩
  · exact absurd hr (natRepr_ne_nil n)
  · have hd : isAsciiDigit c = true := by
      have := natRepr_all_digit n
      rw [hr] at this
      exact (List.all_eq_true.mp this c (List.mem_cons_self c rest))
    rw [pyIntCore_cons, if_neg (digit_ne_dash hd), if_neg (digit_ne_plus hd), ← hr,
      parseDigits_natRepr]
    rfl

theorem pyInt_natRepr (n : Nat) : pyInt (natRepr n) = some (n : Int) := by
  unfold pyInt
  rw [pyStrip_of_all_digits (natRepr_ne_nil n) (natRepr_all_digit n), pyIntCore_natRepr]

theorem getLast?_cons_of_ne_nil {a : Char} {l : Str} (h : l ≠ []) :
    (a :: l).getLast? = l.getLast? := by
  rcases hg : l.getLast? with _ | c
  · rcases l with _ | ⟨x, xs⟩
    · exact absurd rfl h
    · exact absurd hg (by simp [List.getLast?_eq_getLast])
  · have : (a :: l) = [a] ++ l := rfl
    rw [this, List.getLast?_append, hg]
    rfl

theorem pyInt_intRepr (n : Int) : pyInt (intRepr n) = some n := by
  unfold intRepr
  by_cases h : n < 0
  · simp only [h, if_true]
    have hne := natRepr_ne_nil n.natAbs
    have hall := natRepr_all_digit n.natAbs
    have hstrip : pyStrip ('-' :: natRepr n.natAbs) = '-' :: natRepr n.natAbs := by
      refine pyStrip_eq_self (fun c hc => ?_) (fun c hc => ?_)
      · simp at hc; subst hc; decide
      · rw [getLast?_cons_of_ne_nil hne] at hc
        exact not_space_of_digit (List.all_eq_true.mp hall c (mem_of_getLast? hc))
    unfold pyInt
    rw [hstrip, pyIntCore_cons, if_pos rfl, parseDigits_natRepr]
    show some (-(n.natAbs : Int)) = some n
    congr 1
    omega
  · simp only [h, if_false]
    rw [pyInt_natRepr]
    congr 1
    omega

/-- The decimal rendering of an `int` is newline-free, `=`-free, and has
no surrounding whitespace. -/
theorem intRepr_clean (n : Int) :
    '\n' ∉ intRepr n ∧ '=' ∉ intRepr n ∧ pyStrip (intRepr n) = intRepr n := by
  have key : ∀ c ∈ intRepr n, c = '-' ∨ isAsciiDigit c = true := by
    intro c hc
    unfold intRepr at hc
    by_cases h : n < 0
    · simp only [h, if_true] at hc
      rcases List.mem_cons.mp hc with h1 | h1
      · exact Or.inl h1
      · exact Or.inr (List.all_eq_true.mp (natRepr_all_digit _) c h1)
    · simp only [h, if_false] at hc
      exact Or.inr (List.all_eq_true.mp (natRepr_all_digit _) c hc)
  refine ⟨fun hm => ?_, fun hm => ?_, ?_⟩
  · rcases key _ hm with h1 | h1
    · exact absurd h1 (by decide)
    · exact absurd h1 (by decide)
  · rcases key _ hm with h1 | h1
    · exact absurd h1 (by decide)
    · exact absurd h1 (by decide)
  · refine pyStrip_eq_self (fun c hc => ?_) (fun c hc => ?_) <;>
      [have hmem := List.mem_of_mem_head? (by simp [hc] : c ∈ (intRepr n).head?);
       have hmem := mem_of_getLast? hc] <;>
      (rcases key _ hmem with h1 | h1;
       · subst h1; decide
       · exact not_space_of_digit h1)

/-! ## Parsing a rendered `KEY=value` line -/

/-- A value that survives the environment-file round trip unchanged: no
`=`, no newline, and no leading or trailing whitespace (the parser
strips each side of the single `=`). -/
def cleanValue (v : Str) : Bool :=
  v.all (fun c => !(c = '\n') && !(c = '=')) &&
  (match v.head? with | none => true | some c => !isPySpace c) &&
  (match v.getLast? with | none => true | some c => !isPySpace c)

theorem cleanValue_spec {v : Str} (h : cleanValue v = true) :
    '\n' ∉ v ∧ '=' ∉ v ∧
    (∀ c, v.head? = some c → isPySpace c = false) ∧
    (∀ c, v.getLast? = some c → isPySpace c = false) := by
  unfold cleanValue at h
  simp only [Bool.and_eq_true, List.all_eq_true] at h
  obtain ⟨⟨hall, hh⟩, hl⟩ := h
  have hmem : ∀ c ∈ v, c ≠ '\n' ∧ c ≠ '=' := by
    intro c hc
    have := hall c hc
    simp only [Bool.and_eq_true, Bool.not_eq_true', decide_eq_false_iff_not] at this
    exact this
  refine ⟨fun hm => (hmem _ hm).1 rfl, fun hm => (hmem _ hm).2 rfl, ?_, ?_⟩
  · intro c hc
    rw [hc] at hh
    simpa using hh
  · intro c hc
    rw [hc] at hl
    simpa using hl

theorem cleanValue_strip {v : Str} (h : cleanValue v = true) : pyStrip v = v :=
  pyStrip_eq_self (cleanValue_spec h).2.2.1 (cleanValue_spec h).2.2.2

/-- A rendered `KEY=value` line, for a key without `=`, `#` or
whitespace at its edges and a value without `=` or edge whitespace,
parses into exactly one dict entry. -/
theorem parseDotenvLine_kv {d : Dict} {k v : Str}
    (hkne : k ≠ [])
    (hkhead : ∀ c, k.head? = some c → isPySpace c = false ∧ c ≠ '#')
    (hkeq : '=' ∉ k) (hkstrip : pyStrip k = k)
    (hveq : '=' ∉ v)
    (hvhead : ∀ c, v.head? = some c → isPySpace c = false)
    (hvlast : ∀ c, v.getLast? = some c → isPySpace c = false) :
    parseDotenvLine d (k ++ '=' :: v) = .ok (dictSet d k (.s v)) := by
  rcases k with _ | ⟨c0, k'⟩
  · exact absurd rfl hkne
  have hstrip : pyStrip ((c0 :: k') ++ '=' :: v) = (c0 :: k') ++ '=' :: v := by
    refine pyStrip_eq_self (fun c hc => ?_) (fun c hc => ?_)
    · simp only [List.cons_append, List.head?_cons, Option.some.injEq] at hc
      exact (hkhead c (by rw [← hc]; rfl)).1
    · rw [List.getLast?_append] at hc
      rcases v with _ | ⟨x, xs⟩
      · have he : (('=' : Char) :: ([] : Str)).getLast? = some '=' := rfl
        rw [he] at hc
        have : c = '=' := by
          have : some '=' = some c := hc
          exact (Option.some.injEq _ _ ▸ this).symm
        subst this
        decide
      · rw [getLast?_cons_of_ne_nil (by simp : (x :: xs : Str) ≠ [])] at hc
        rcases hg : (x :: xs : Str).getLast? with _ | y
        · exact absurd hg (by simp [List.getLast?_eq_getLast])
        · rw [hg] at hc
          have hyc : y = c := by
            have : some y = some c := hc
            exact Option.some.injEq _ _ ▸ this
          exact hvlast c (by rw [hg, hyc])
  have hkeq' : '=' ∉ (c0 :: k') := hkeq
  have hvstrip : pyStrip v = v := pyStrip_eq_self hvhead hvlast
  have hcnt : pyCount '=' ((c0 :: k') ++ '=' :: v) = 1 := by
    rw [pyCount_append, pyCount_cons_self, pyCount_eq_zero hkeq', pyCount_eq_zero hveq]
  have hc0 : c0 ≠ '#' := (hkhead c0 rfl).2
  unfold parseDotenvLine
  rw [hstrip, if_neg (by simp : ¬((c0 :: k') ++ '=' :: v = []))]
  rw [if_neg (by simp only [List.cons_append, List.head?_cons, Option.some.injEq]; exact hc0)]
  rw [if_neg (not_not_intro hcnt)]
  rw [splitOnChar_append v hkeq', splitOnChar_not_mem hveq]
  show Except.ok (dictSet d (pyStrip (c0 :: k')) (.s (pyStrip v))) = _
  rw [hkstrip, hvstrip]

theorem readDotenvLines_cons (d : Dict) (l : Str) (rest : List Str) :
    readDotenvLines d (l :: rest) =
      match parseDotenvLine d l with
      | .ok d' => readDotenvLines d' rest
      | .error e => .error e := rfl

theorem readDotenvLines_cons_ok {d d' : Dict} {l : Str} {rest : List Str}
    (h : parseDotenvLine d l = .ok d') :
    readDotenvLines d (l :: rest) = readDotenvLines d' rest := by
  rw [readDotenvLines_cons, h]

/-! ## Dict lemmas -/

theorem dictGet?_set_same (d : Dict) (k : Str) (v : PyVal) :
    dictGet? (dictSet d k v) k = some v := by
  induction d with
  | nil => simp [dictSet, dictGet?]
  | cons p rest ih =>
      obtain ⟨k', v'⟩ := p
      by_cases h : k' = k
      · simp [dictSet, dictGet?, h]
      · simp [dictSet, dictGet?, h, ih]

theorem dictGet?_set_other {k q : Str} (h : q ≠ k) (d : Dict) (v : PyVal) :
    dictGet? (dictSet d k v) q = dictGet? d q := by
  have hkq : ¬(k = q) := fun he => h he.symm
  induction d with
  | nil => simp [dictSet, dictGet?, hkq]
  | cons p rest ih =>
      obtain ⟨k', v'⟩ := p
      by_cases hk : k' = k
      · subst hk
        simp [dictSet, dictGet?, hkq]
      · by_cases hq : k' = q
        · simp [dictSet, dictGet?, hk, hq, h]
        · simp [dictSet, dictGet?, hk, hq, ih]

theorem dictGet?_del_other {k q : Str} (h : q ≠ k) (d : Dict) :
    dictGet? (dictDel d k) q = dictGet? d q := by
  have hkq : ¬(k = q) := fun he => h he.symm
  induction d with
  | nil => simp [dictDel, dictGet?]
  | cons p rest ih =>
      obtain ⟨k', v'⟩ := p
      by_cases hk : k' = k
      · subst hk
        simp [dictDel, dictGet?, hkq]
      · by_cases hq : k' = q
        · simp [dictDel, dictGet?, hk, hq, h]
        · simp [dictDel, dictGet?, hk, hq, ih]

theorem dictHas_of_get {d : Dict} {k : Str} {v : PyVal}
    (h : dictGet? d k = some v) : dictHas d k = true := by
  simp [dictHas, h]

/-! ## The five lines of a rendered environment file -/

theorem generate_dotenv_lines (hostname : Str) (hp : PyVal) (m dbp rpw t1 t2 : Str) :
    generate_dotenv hostname hp m (some dbp) (some rpw) t1 t2 =
      (S "DB_MNT" ++ '=' :: m) ++ '\n' ::
      ((S "DB_ROOT_PASSWD" ++ '=' :: rpw) ++ '\n' ::
      ((S "DB_PASSWD" ++ '=' :: dbp) ++ '\n' ::
      ((S "HOST_PORT" ++ '=' :: pv2s hp) ++ '\n' ::
      (S "HOSTNAME" ++ '=' :: hostname)))) := by
  have e1 : S "DB_MNT=" = S "DB_MNT" ++ ['='] := by decide
  have e2 : S "\nDB_ROOT_PASSWD=" = '\n' :: (S "DB_ROOT_PASSWD" ++ ['=']) := by decide
  have e3 : S "\nDB_PASSWD=" = '\n' :: (S "DB_PASSWD" ++ ['=']) := by decide
  have e4 : S "\nHOST_PORT=" = '\n' :: (S "HOST_PORT" ++ ['=']) := by decide
  have e5 : S "\nHOSTNAME=" = '\n' :: (S "HOSTNAME" ++ ['=']) := by decide
  unfold generate_dotenv
  simp only [Option.getD_some]
  rw [e1, e2, e3, e4, e5]
  simp [List.append_assoc]

/-! ## `pyInt` on digit strings -/

theorem parseDigits_isSome {s : Str} (hne : s ≠ [])
    (hall : s.all isAsciiDigit = true) : (parseDigits s).isSome = true := by
  unfold parseDigits
  rw [if_neg hne, if_pos hall]
  rfl

theorem pyIntCore_isSome_of_digits {s : Str} (hne : s ≠ [])
    (hall : s.all isAsciiDigit = true) : (pyIntCore s).isSome = true := by
  rcases s with _ | ⟨c, rest⟩
  · exact absurd rfl hne
  · have hd : isAsciiDigit c = true :=
      List.all_eq_true.mp hall c (List.mem_cons_self c rest)
    have hps := parseDigits_isSome hne hall
    rcases hp : parseDigits (c :: rest) with _ | n
    · rw [hp] at hps
      exact absurd hps (by decide)
    · rw [pyIntCore_cons, if_neg (digit_ne_dash hd), if_neg (digit_ne_plus hd), hp]
      rfl

theorem pyInt_isSome_of_digits {s : Str} (hne : s ≠ [])
    (hall : s.all isAsciiDigit = true) : (pyInt s).isSome = true := by
  unfold pyInt
  rw [pyStrip_of_all_digits hne hall]
  exact pyIntCore_isSome_of_digits hne hall

theorem pyStrip_digits_newline {s : Str} (hne : s ≠ [])
    (hall : s.all isAsciiDigit = true) : pyStrip (s ++ ['\n']) = s := by
  rcases s with _ | ⟨c, rest⟩
  · exact absurd rfl hne
  have hd : isAsciiDigit c = true :=
    List.all_eq_true.mp hall c (List.mem_cons_self c rest)
  unfold pyStrip
  rw [List.cons_append, dropWhile_cons_of_neg (not_space_of_digit hd), ← List.cons_append]
  rw [List.reverse_append]
  simp only [List.reverse_cons, List.reverse_nil, List.nil_append, List.singleton_append]
  rw [List.dropWhile_cons]
  simp only [show isPySpace '\n' = true from rfl, if_true]
  rw [← List.reverse_cons]
  rcases hrev : (c :: rest).reverse with _ | ⟨y, t⟩
  · exact absurd hrev (by simp)
  · have hy : y ∈ (c :: rest) := by
      have : y ∈ (c :: rest).reverse := by rw [hrev]; exact List.mem_cons_self y t
      exact List.mem_reverse.mp this
    have hyd : isAsciiDigit y = true := List.all_eq_true.mp hall y hy
    rw [dropWhile_cons_of_neg (not_space_of_digit hyd)]
    have := congrArg List.reverse hrev
    rw [List.reverse_reverse] at this
    exact this.symm

/-! ## Claim C8: the hostname grammar on its sample strings -/

/-- C8: the hostname validation grammar (`HOSTNAME_REGEX` as applied by
`Checks.type_convertable`) accepts "example.com", "a.b.c" and
"localhost", and rejects "exa mple.com" and the empty string. -/
theorem c8_hostname_grammar :
    typeConvertable (S "example.com") .str (some hostnameMatch) = true ∧
    typeConvertable (S "a.b.c") .str (some hostnameMatch) = true ∧
    typeConvertable (S "localhost") .str (some hostnameMatch) = true ∧
    typeConvertable (S "exa mple.com") .str (some hostnameMatch) = false ∧
    typeConvertable (S "") .str (some hostnameMatch) = false := by
  decide

/-! ## Claim C9: the port grammar -/

/-- C9 as stated is false: the port validation (`PORT_REGEX` applied via
`re.match` plus `int()` conversion) also accepts "123\n" — in Python a
trailing `$` matches just before a string-final newline — and "123\n" is
not a string of 1 to 5 decimal digits. -/
theorem c9_port_grammar_counterexample :
    typeConvertable (S "123\n") .int (some portMatch) = true ∧
    specPortStrings (S "123\n") = false := by
  decide

/-- C9 (amended): the port validation grammar accepts exactly the
strings of 1 to 5 decimal digits optionally followed by a single
trailing newline; in particular it accepts "8080", "1", "65535" and
"99999" (above the 16-bit range), and rejects "123456" and "abc". -/
theorem c9_port_grammar_amended :
    (∀ s : Str, typeConvertable s .int (some portMatch) = true ↔
      (specPortStrings s = true ∨ ∃ c, s = c ++ ['\n'] ∧ specPortStrings c = true)) ∧
    typeConvertable (S "8080") .int (some portMatch) = true ∧
    typeConvertable (S "1") .int (some portMatch) = true ∧
    typeConvertable (S "65535") .int (some portMatch) = true ∧
    typeConvertable (S "99999") .int (some portMatch) = true ∧
    typeConvertable (S "123456") .int (some portMatch) = false ∧
    typeConvertable (S "abc") .int (some portMatch) = false := by
  refine ⟨fun s => ⟨fun h => ?_, fun h => ?_⟩, by decide, by decide, by decide, by decide,
    by decide, by decide⟩
  · unfold typeConvertable at h
    simp only [Bool.and_eq_true] at h
    obtain ⟨hre, _⟩ := h
    unfold portMatch pyReFullDollar at hre
    simp only [Bool.or_eq_true] at hre
    rcases hre with h1 | h1
    · exact Or.inl h1
    · simp only [Bool.and_eq_true, decide_eq_true_eq] at h1
      obtain ⟨hl, hc⟩ := h1
      have hsne : s ≠ [] := by
        intro he
        rw [he] at hl
        exact absurd hl (by decide)
      refine Or.inr ⟨s.dropLast, ?_, hc⟩
      have hsplit := List.dropLast_append_getLast hsne
      have hg : s.getLast hsne = '\n' := by
        have h2 := List.getLast?_eq_getLast s hsne
        rw [h2] at hl
        exact Option.some.inj hl
      rw [← hg]
      exact hsplit.symm
  · rcases h with hd | ⟨c, rfl, hc⟩
    · simp only [specPortStrings, Bool.and_eq_true, decide_eq_true_eq] at hd
      obtain ⟨⟨h1, h2⟩, h3⟩ := hd
      have hsne : s ≠ [] := by
        intro he
        rw [he] at h1
        exact absurd h1 (by simp)
      unfold typeConvertable
      simp only [Bool.and_eq_true]
      constructor
      · show portMatch s = true
        unfold portMatch pyReFullDollar
        simp only [Bool.or_eq_true]
        refine Or.inl ?_
        simp only [portCore, Bool.and_eq_true, decide_eq_true_eq]
        exact ⟨⟨h1, h2⟩, h3⟩
      · exact pyInt_isSome_of_digits hsne h3
    · simp only [specPortStrings, Bool.and_eq_true, decide_eq_true_eq] at hc
      obtain ⟨⟨h1, h2⟩, h3⟩ := hc
      have hcne : c ≠ [] := by
        intro he
        rw [he] at h1
        exact absurd h1 (by simp)
      unfold typeConvertable
      simp only [Bool.and_eq_true]
      constructor
      · show portMatch (c ++ ['\n']) = true
        unfold portMatch pyReFullDollar
        simp only [Bool.or_eq_true]
        refine Or.inr ?_
        simp only [Bool.and_eq_true, decide_eq_true_eq]
        refine ⟨List.getLast?_concat c, ?_⟩
        rw [List.dropLast_concat]
        simp only [portCore, Bool.and_eq_true, decide_eq_true_eq]
        exact ⟨⟨h1, h2⟩, h3⟩
      · unfold pyInt
        rw [pyStrip_digits_newline hcne h3]
        exact pyIntCore_isSome_of_digits hcne h3

/-! ## Claim C10: abort conditions of `read_dotenv` -/

theorem parseDotenvLine_bad {d : Dict} {l : Str} (h : badLine l) :
    parseDotenvLine d l = .error (S "Invalid line in .env file: " ++ l) := by
  obtain ⟨h1, h2, h3⟩ := h
  unfold parseDotenvLine
  rw [if_neg h1, if_neg h2, if_pos h3]

theorem readDotenvLines_ok_no_bad : ∀ (lines : List Str) (d d' : Dict),
    readDotenvLines d lines = .ok d' → ∀ l ∈ lines, ¬ badLine l
  | [], _, _, _ => by
      intro l hl
      exact absurd hl (List.not_mem_nil l)
  | l0 :: rest, d, d', h => by
      intro l hl
      rw [readDotenvLines_cons] at h
      cases hp : parseDotenvLine d l0 with
      | error e =>
          rw [hp] at h
          exact absurd h (by simp)
      | ok d0 =>
          rw [hp] at h
          rcases List.mem_cons.mp hl with rfl | hmem
          · intro hb
            rw [parseDotenvLine_bad hb] at hp
            exact Except.noConfusion hp
          · exact readDotenvLines_ok_no_bad rest d0 d' h l hmem

theorem dictGet?_del_of_none {d : Dict} {k q : Str} (h : dictGet? d k = none) :
    dictGet? (dictDel d q) k = none := by
  induction d with
  | nil => simp [dictDel, dictGet?]
  | cons p rest ih =>
      obtain ⟨k', v'⟩ := p
      have hkk : ¬(k' = k) := by
        intro he
        rw [dictGet?, if_pos he] at h
        exact Option.noConfusion h
      have hrest : dictGet? rest k = none := by
        rw [dictGet?, if_neg hkk] at h
        exact h
      by_cases hq : k' = q
      · simp [dictDel, hq, hrest]
      · simp [dictDel, dictGet?, hq, hkk, ih hrest]

theorem dictGet?_set_of_none {d : Dict} {k q : Str} (h : dictGet? d k = none)
    (hqk : q ≠ k) (v : PyVal) : dictGet? (dictSet d q v) k = none := by
  rw [dictGet?_set_other (fun he => hqk he.symm) d v]
  exact h

/-- If a required key is absent from the parsed dict (and no later
lowercase insertion can shadow it), the renaming loop aborts. -/
theorem renameKeys_error_of_missing : ∀ (ks : List Str) (d : Dict) (k : Str), k ∈ ks →
    dictGet? d k = none → (∀ k' ∈ ks, pyLower k' ≠ k) →
    ∃ e, renameKeys d ks = .error e
  | [], _, _, hk, _, _ => absurd hk (List.not_mem_nil _)
  | k0 :: rest, d, k, hk, hnone, hlow => by
      unfold renameKeys renameKey
      cases hg : dictGet? d k0 with
      | none => exact ⟨_, rfl⟩
      | some v =>
          rcases List.mem_cons.mp hk with rfl | hmem
          · rw [hg] at hnone
            exact Option.noConfusion hnone
          · have hlow0 : pyLower k0 ≠ k := hlow k0 (List.mem_cons_self k0 rest)
            have hnone' :
                dictGet? (dictDel (dictSet d (pyLower k0) v) k0) k = none :=
              dictGet?_del_of_none (dictGet?_set_of_none hnone hlow0 v)
            obtain ⟨e, he⟩ := renameKeys_error_of_missing rest _ k hmem hnone'
              (fun k' hk' => hlow k' (List.mem_cons_of_mem k0 hk'))
            exact ⟨e, he⟩

theorem dictHas_set_preserve {d : Dict} {q : Str} (h : dictHas d q = true)
    (k : Str) (v : PyVal) : dictHas (dictSet d k v) q = true := by
  by_cases hk : q = k
  · subst hk
    simp [dictHas, dictGet?_set_same]
  · rw [dictHas, dictGet?_set_other hk]
    exact h

theorem dictHas_del_preserve {d : Dict} {q k : Str} (h : dictHas d q = true)
    (hne : q ≠ k) : dictHas (dictDel d k) q = true := by
  rw [dictHas, dictGet?_del_other hne]
  exact h

/-- A key already present (and distinct from every processed key) is
still present after the renaming pass. -/
theorem renameKeys_preserves : ∀ (ks : List Str) (d d' : Dict),
    renameKeys d ks = .ok d' → ∀ q, dictHas d q = true →
    (∀ k2 ∈ ks, q ≠ k2) → dictHas d' q = true
  | [], d, d', h, q, hq, _ => by
      unfold renameKeys at h
      cases h
      exact hq
  | k0 :: rest, d, d', h, q, hq, hne => by
      unfold renameKeys renameKey at h
      cases hg : dictGet? d k0 with
      | none =>
          rw [hg] at h
          exact absurd h (by simp)
      | some v =>
          rw [hg] at h
          have hq1 : dictHas (dictDel (dictSet d (pyLower k0) v) k0) q = true :=
            dictHas_del_preserve (dictHas_set_preserve hq _ v)
              (hne k0 (List.mem_cons_self k0 rest))
          exact renameKeys_preserves rest _ d' h q hq1
            (fun k2 hk2 => hne k2 (List.mem_cons_of_mem k0 hk2))

/-- After a successful renaming pass, every processed key is present
under its lowercase name, provided no later processed key can delete it. -/
theorem renameKeys_has : ∀ (ks : List Str) (d d' : Dict),
    renameKeys d ks = .ok d' → ∀ k ∈ ks, pyLower k ∉ ks →
    dictHas d' (pyLower k) = true
  | [], _, _, _, k, hk, _ => absurd hk (List.not_mem_nil _)
  | k0 :: rest, d, d', h, k, hk, hnd => by
      unfold renameKeys renameKey at h
      cases hg : dictGet? d k0 with
      | none =>
          rw [hg] at h
          exact absurd h (by simp)
      | some v =>
          rw [hg] at h
          have hrest : renameKeys (dictDel (dictSet d (pyLower k0) v) k0) rest = .ok d' := h
          rcases List.mem_cons.mp hk with he | hmem
          · subst he
            -- the key processed in this step stays present afterwards
            have hstep : dictHas (dictDel (dictSet d (pyLower k) v) k) (pyLower k) = true := by
              refine dictHas_del_preserve ?_ ?_
              · exact dictHas_of_get (dictGet?_set_same d (pyLower k) v)
              · intro he2
                exact hnd (by rw [he2]; exact List.mem_cons_self k rest)
            exact renameKeys_preserves rest _ d' hrest _ hstep
              (fun k2 hk2 => fun he2 => hnd (by rw [he2]; exact List.mem_cons_of_mem k hk2))
          · exact renameKeys_has rest _ d' hrest k hmem
              (fun hm => hnd (List.mem_cons_of_mem k0 hm))


/-- The renaming pass on a freshly parsed five-key dict (keys are
concrete, values symbolic): every key moves to its lowercase name. -/
theorem renameKeys_concrete (v1 v2 v3 v4 v5 : PyVal) :
    renameKeys [(S "DB_MNT", v1), (S "DB_ROOT_PASSWD", v2), (S "DB_PASSWD", v3),
      (S "HOST_PORT", v4), (S "HOSTNAME", v5)] DOTENV_KEYS =
    .ok [(S "db_mnt", v1), (S "db_root_passwd", v2), (S "db_passwd", v3),
      (S "host_port", v4), (S "hostname", v5)] := rfl

theorem pyStrip_cons_nonspace {a : Char} {l : Str} (h : isPySpace a = false) :
    ∃ t, pyStrip (a :: l) = a :: t := by
  unfold pyStrip
  rw [dropWhile_cons_of_neg h, List.reverse_cons, List.dropWhile_append]
  by_cases he : (List.dropWhile isPySpace l.reverse).isEmpty
  · rw [if_pos he, List.dropWhile_cons, h]
    exact ⟨[], rfl⟩
  · rw [if_neg he]
    exact ⟨(List.dropWhile isPySpace l.reverse).reverse, by simp⟩

theorem newline_not_mem_kv {k v : Str} (hk : '\n' ∉ k) (hv : '\n' ∉ v) :
    '\n' ∉ (k ++ '=' :: v) := by
  intro hmem
  rcases List.mem_append.mp hmem with h | h
  · exact hk h
  · rcases List.mem_cons.mp h with h | h
    · exact absurd h (by decide)
    · exact hv h

/-- A key=value line whose key starts with a nonspace non-`#` character
and whose value contains at least one extra `=` is rejected. -/
theorem badLine_extra_eq {c0 : Char} {k' v : Str}
    (hc0 : isPySpace c0 = false) (hc0h : c0 ≠ '#') (hv : '=' ∈ v) :
    badLine ((c0 :: k') ++ '=' :: v) := by
  obtain ⟨t, ht⟩ := @pyStrip_cons_nonspace c0 (k' ++ '=' :: v) hc0
  rw [List.cons_append]
  refine ⟨?_, ?_, ?_⟩
  · rw [ht]
    simp
  · rw [ht]
    simp only [List.head?_cons, ne_eq, Option.some.injEq]
    exact hc0h
  · have h2 : 0 < pyCount '=' v := by
      refine List.countP_pos_iff.mpr ⟨'=', hv, ?_⟩
      simp
    rw [← List.cons_append, pyCount_append, pyCount_cons_self]
    omega

/-- C10: `read_dotenv` aborts rather than returning whenever some
non-blank, non-comment line of the file does not contain exactly one
`=` (a successful parse implies every line is blank, a comment, or has
exactly one `=`), and whenever any of the five required keys is absent
(a successful parse carries all five, renamed to lowercase); in
particular a password persisted by `generate_dotenv` that contains an
`=` (and no newline) makes every later `read_dotenv` call fail. -/
theorem c10_read_dotenv_aborts :
    (∀ content d, read_dotenv content = .ok d →
      ∀ l ∈ splitOnChar '\n' content, ¬ badLine l) ∧
    (∀ content d, read_dotenv content = .ok d →
      ∀ k ∈ DOTENV_KEYS, dictHas d (pyLower k) = true) ∧
    (∀ d0 k, k ∈ DOTENV_KEYS → dictGet? d0 k = none →
      ∀ content, readDotenvLines [] (splitOnChar '\n' content) = .ok d0 →
      isErr (read_dotenv content) = true) ∧
    (∀ (h m pw rpw t1 t2 : Str) (hp : PyVal), '=' ∈ pw → '\n' ∉ pw → '\n' ∉ m → '\n' ∉ rpw →
      isErr (read_dotenv (generate_dotenv h hp m (some pw) (some rpw) t1 t2)) = true) := by
  have key_ok : ∀ content d0, read_dotenv content = .ok d0 →
      ∃ d1, readDotenvLines [] (splitOnChar '\n' content) = .ok d1 ∧
        renameKeys d1 DOTENV_KEYS = .ok d0 := by
    intro content d0 h
    unfold read_dotenv at h
    cases hr : readDotenvLines [] (splitOnChar '\n' content) with
    | error e =>
        rw [hr] at h
        exact absurd h (by simp)
    | ok d1 =>
        rw [hr] at h
        exact ⟨d1, rfl, h⟩
  refine ⟨?_, ?_, ?_, ?_⟩
  · intro content d h l hl
    obtain ⟨d1, hr, _⟩ := key_ok content d h
    exact readDotenvLines_ok_no_bad _ _ _ hr l hl
  · intro content d h k hk
    obtain ⟨d1, _, hren⟩ := key_ok content d h
    refine renameKeys_has DOTENV_KEYS d1 d hren k hk ?_
    intro hmem
    have hk5 : k ∈ DOTENV_KEYS := hk
    simp only [DOTENV_KEYS, List.mem_cons, List.not_mem_nil, or_false] at hk5
    rcases hk5 with rfl | rfl | rfl | rfl | rfl <;>
      (revert hmem; decide)
  · intro d0 k hk hnone content hlines
    have hlow : ∀ k' ∈ DOTENV_KEYS, pyLower k' ≠ k := by
      intro k' hk' he
      have hk5 : k' ∈ DOTENV_KEYS := hk'
      have hkk : k ∈ DOTENV_KEYS := hk
      simp only [DOTENV_KEYS, List.mem_cons, List.not_mem_nil, or_false] at hk5 hkk
      rcases hk5 with rfl | rfl | rfl | rfl | rfl <;>
        (rcases hkk with rfl | rfl | rfl | rfl | rfl <;> revert he <;> decide)
    obtain ⟨e, he⟩ := renameKeys_error_of_missing DOTENV_KEYS d0 k hk hnone hlow
    unfold read_dotenv
    rw [hlines]
    show isErr (renameKeys d0 DOTENV_KEYS) = true
    rw [he]
    rfl
  · intro h m pw rpw t1 t2 hpv heq hnlp hnlm hnlr
    rw [generate_dotenv_lines]
    -- the DB_PASSWD line sits whole between two literal newlines
    have hl1 : '\n' ∉ (S "DB_MNT" ++ '=' :: m) :=
      newline_not_mem_kv (by decide) hnlm
    have hl2 : '\n' ∉ (S "DB_ROOT_PASSWD" ++ '=' :: rpw) :=
      newline_not_mem_kv (by decide) hnlr
    have hl3 : '\n' ∉ (S "DB_PASSWD" ++ '=' :: pw) :=
      newline_not_mem_kv (by decide) hnlp
    unfold read_dotenv
    rw [splitOnChar_append _ hl1, splitOnChar_append _ hl2, splitOnChar_append _ hl3]
    have hbad : badLine (S "DB_PASSWD" ++ '=' :: pw) := by
      have hlit : badLine (('D' :: S "B_PASSWD") ++ '=' :: pw) :=
        badLine_extra_eq (by decide) (by decide) heq
      exact hlit
    cases hr : readDotenvLines []
        ((S "DB_MNT" ++ '=' :: m) :: (S "DB_ROOT_PASSWD" ++ '=' :: rpw) ::
          (S "DB_PASSWD" ++ '=' :: pw) ::
          splitOnChar '\n' ((S "HOST_PORT" ++ '=' :: pv2s hpv) ++ '\n' ::
            (S "HOSTNAME" ++ '=' :: h))) with
    | error e => rfl
    | ok d1 =>
        exact absurd hbad
          (readDotenvLines_ok_no_bad _ _ _ hr (S "DB_PASSWD" ++ '=' :: pw)
            (by simp))

/-- C10 as stated is false in one corner: a password containing `=` and
also a newline can render to a file that still parses (here "a\nb=c"
yields the lines "DB_PASSWD=a" and "b=c", each with exactly one `=`),
so an `=` in a persisted password does not always make later reads
fail. -/
theorem c10_read_dotenv_counterexample :
    '=' ∈ S "a\nb=c" ∧
    isErr (read_dotenv (generate_dotenv (S "localhost") (.i 8080) (S "db_data")
      (some (S "a\nb=c")) (some (S "r")) (S "t1") (S "t2"))) = false := by
  decide

/-- Witness: a persisted password "a=b" (newline-free) makes the next
read of the rendered file abort. -/
theorem c10_read_dotenv_witness :
    isErr (read_dotenv (generate_dotenv (S "localhost") (.i 8080) (S "db_data")
      (some (S "a=b")) (some (S "r")) (S "t1") (S "t2"))) = true :=
  c10_read_dotenv_aborts.2.2.2 (S "localhost") (S "db_data") (S "a=b") (S "r")
    (S "t1") (S "t2") (.i 8080) (by decide) (by decide) (by decide) (by decide)

/-! ## Claim C5: environment-file round trip -/

theorem intRepr_chars (n : Int) : ∀ c ∈ intRepr n, c = '-' ∨ isAsciiDigit c = true := by
  intro c hc
  unfold intRepr at hc
  by_cases h : n < 0
  · simp only [h, if_true] at hc
    rcases List.mem_cons.mp hc with h1 | h1
    · exact Or.inl h1
    · exact Or.inr (List.all_eq_true.mp (natRepr_all_digit _) c h1)
  · simp only [h, if_false] at hc
    exact Or.inr (List.all_eq_true.mp (natRepr_all_digit _) c hc)

theorem intRepr_cleanValue (n : Int) : cleanValue (intRepr n) = true := by
  unfold cleanValue
  simp only [Bool.and_eq_true, List.all_eq_true]
  refine ⟨⟨?_, ?_⟩, ?_⟩
  · intro c hc
    rcases intRepr_chars n c hc with rfl | hd
    · decide
    · simp only [Bool.and_eq_true, Bool.not_eq_true', decide_eq_false_iff_not]
      exact ⟨digit_ne_newline hd, digit_ne_eq hd⟩
  · rcases hhd : (intRepr n).head? with _ | c
    · simp [hhd]
    · have hmem : c ∈ intRepr n := List.mem_of_mem_head? (by simp [hhd])
      rcases intRepr_chars n c hmem with rfl | hd
      · simp [hhd]
        decide
      · simp [hhd, not_space_of_digit hd]
  · rcases hld : (intRepr n).getLast? with _ | c
    · simp [hld]
    · have hmem : c ∈ intRepr n := mem_of_getLast? hld
      rcases intRepr_chars n c hmem with rfl | hd
      · simp [hld]
        decide
      · simp [hld, not_space_of_digit hd]

theorem key_head_spec {k : Str} {c0 : Char} (hk : k.head? = some c0)
    (h1 : isPySpace c0 = false) (h2 : c0 ≠ '#') :
    ∀ c, k.head? = some c → isPySpace c = false ∧ c ≠ '#' := by
  intro c hc
  rw [hk] at hc
  cases Option.some.inj hc
  exact ⟨h1, h2⟩

/-- C5 (amended): rendering the environment file and parsing it back
recovers hostname, port, mount path, and both passwords exactly, for
every record whose string values contain no `=`, no newline, and no
leading or trailing whitespace; the port value survives as its exact
decimal rendering, which parses back to the same integer. -/
theorem c5_roundtrip_amended (h m pw rpw : Str) (n : Int) (t1 t2 : Str)
    (hh : cleanValue h = true) (hm : cleanValue m = true)
    (hp : cleanValue pw = true) (hr : cleanValue rpw = true) :
    read_dotenv (generate_dotenv h (.i n) m (some pw) (some rpw) t1 t2) =
      .ok [(S "db_mnt", .s m), (S "db_root_passwd", .s rpw), (S "db_passwd", .s pw),
        (S "host_port", .s (intRepr n)), (S "hostname", .s h)] ∧
    pyInt (intRepr n) = some n := by
  obtain ⟨hmn, hme, hmh, hml⟩ := cleanValue_spec hm
  obtain ⟨hrn, hre, hrh, hrl⟩ := cleanValue_spec hr
  obtain ⟨hpn, hpe, hph, hpl⟩ := cleanValue_spec hp
  obtain ⟨hhn, hhe, hhh, hhl⟩ := cleanValue_spec hh
  obtain ⟨hin, hie, hih, hil⟩ := cleanValue_spec (intRepr_cleanValue n)
  have hk1 : ∀ c, (S "DB_MNT").head? = some c → isPySpace c = false ∧ c ≠ '#' :=
    key_head_spec rfl (by decide) (by decide)
  have hk2 : ∀ c, (S "DB_ROOT_PASSWD").head? = some c → isPySpace c = false ∧ c ≠ '#' :=
    key_head_spec rfl (by decide) (by decide)
  have hk3 : ∀ c, (S "DB_PASSWD").head? = some c → isPySpace c = false ∧ c ≠ '#' :=
    key_head_spec rfl (by decide) (by decide)
  have hk4 : ∀ c, (S "HOST_PORT").head? = some c → isPySpace c = false ∧ c ≠ '#' :=
    key_head_spec rfl (by decide) (by decide)
  have hk5 : ∀ c, (S "HOSTNAME").head? = some c → isPySpace c = false ∧ c ≠ '#' :=
    key_head_spec rfl (by decide) (by decide)
  refine ⟨?_, pyInt_intRepr n⟩
  rw [generate_dotenv_lines]
  rw [show pv2s (PyVal.i n) = intRepr n from rfl]
  unfold read_dotenv
  rw [splitOnChar_append _ (newline_not_mem_kv (by decide) hmn),
      splitOnChar_append _ (newline_not_mem_kv (by decide) hrn),
      splitOnChar_append _ (newline_not_mem_kv (by decide) hpn),
      splitOnChar_append _ (newline_not_mem_kv (by decide) hin),
      splitOnChar_not_mem (newline_not_mem_kv (by decide) hhn)]
  rw [readDotenvLines_cons_ok (parseDotenvLine_kv (by decide) hk1 (by decide) (by decide) hme hmh hml),
      readDotenvLines_cons_ok (parseDotenvLine_kv (by decide) hk2 (by decide) (by decide) hre hrh hrl),
      readDotenvLines_cons_ok (parseDotenvLine_kv (by decide) hk3 (by decide) (by decide) hpe hph hpl),
      readDotenvLines_cons_ok (parseDotenvLine_kv (by decide) hk4 (by decide) (by decide) hie hih hil),
      readDotenvLines_cons_ok (parseDotenvLine_kv (by decide) hk5 (by decide) (by decide) hhe hhh hhl)]
  show renameKeys [(S "DB_MNT", .s m), (S "DB_ROOT_PASSWD", .s rpw), (S "DB_PASSWD", .s pw),
      (S "HOST_PORT", .s (intRepr n)), (S "HOSTNAME", .s h)] DOTENV_KEYS = _
  exact renameKeys_concrete (.s m) (.s rpw) (.s pw) (.s (intRepr n)) (.s h)

/-- C5 as stated is false: the record with password "p=q" satisfies
every data-model invariant (hostname, port, and mount-path grammars
pass; passwords are unconstrained secret strings), yet parsing back its
rendered environment file aborts instead of recovering the values. -/
theorem c5_roundtrip_counterexample :
    isErr (read_dotenv (generate_dotenv (S "localhost") (.i 8080) (S "db_data")
      (some (S "p=q")) (some (S "r")) (S "t1") (S "t2"))) = true ∧
    hostnameMatch (S "localhost") = true ∧
    portMatch (S "8080") = true ∧
    pathMatch (S "db_data") = true := by
  decide

/-- Witness: the round trip at a concrete clean record. -/
theorem c5_roundtrip_witness :
    read_dotenv (generate_dotenv (S "example.com") (.i 8080) (S "db_data")
      (some (S "pw1")) (some (S "pw2")) (S "t1") (S "t2")) =
      .ok [(S "db_mnt", .s (S "db_data")), (S "db_root_passwd", .s (S "pw2")),
        (S "db_passwd", .s (S "pw1")), (S "host_port", .s (intRepr 8080)),
        (S "hostname", .s (S "example.com"))] ∧
    pyInt (intRepr 8080) = some 8080 :=
  c5_roundtrip_amended (S "example.com") (S "db_data") (S "pw1") (S "pw2") 8080
    (S "t1") (S "t2") (by decide) (by decide) (by decide) (by decide)

/-! ## Run lemmas for the interpreter -/

theorem bindM_eq {α β : Type} (x : M α) (f : α → M β) :
    (x >>= f) = mbind x f := rfl

theorem pureM_eq {α : Type} (a : α) : (pure a : M α) = mpure a := rfl

theorem mbind_ok {α β : Type} {x : M α} {env : Env} {s s' : St} {a : α}
    (h : x env s = (.ok a, s')) (f : α → M β) :
    mbind x f env s = f a env s' := by
  unfold mbind
  rw [h]

theorem mbind_assertFail {α β : Type} {x : M α} {env : Env} {s s' : St} {m : Str}
    (h : x env s = (.assertFail m, s')) (f : α → M β) :
    mbind x f env s = (.assertFail m, s') := by
  unfold mbind
  rw [h]

theorem mbind_exc {α β : Type} {x : M α} {env : Env} {s s' : St} {m : Str}
    (h : x env s = (.exc m, s')) (f : α → M β) :
    mbind x f env s = (.exc m, s') := by
  unfold mbind
  rw [h]

theorem mbind_exited {α β : Type} {x : M α} {env : Env} {s s' : St} {n : Nat}
    (h : x env s = (.exited n, s')) (f : α → M β) :
    mbind x f env s = (.exited n, s') := by
  unfold mbind
  rw [h]

/-! ## Framing: tame computations -/

theorem trace_ext_nil {s' s : St} (h : s'.trace = s.trace) :
    s'.trace = s.trace ++ [] := by
  rw [List.append_nil]
  exact h

theorem tame_mpure {α : Type} (a : α) : Tame (mpure a) := by
  intro env s
  exact ⟨fun n h => Outcome.noConfusion h, rfl, [], trace_ext_nil rfl, rfl⟩

theorem tame_mbind {α β : Type} {x : M α} {f : α → M β}
    (hx : Tame x) (hf : ∀ a, Tame (f a)) : Tame (mbind x f) := by
  intro env s
  obtain ⟨hxe, hxf, t1, hxt, hxb⟩ := hx env s
  unfold mbind
  cases hox : x env s with
  | mk o s1 =>
    rw [hox] at hxe hxf hxt
    cases o with
    | ok a =>
        obtain ⟨hfe, hff, t2, hft, hfb⟩ := hf a env s1
        refine ⟨hfe, by rw [hff, hxf], t1 ++ t2, ?_, ?_⟩
        · rw [hft, hxt, List.append_assoc]
        · simp [List.all_append]
          exact ⟨by simpa using hxb, by simpa using hfb⟩
    | exited n => exact absurd rfl (hxe n)
    | assertFail m => exact ⟨fun n h => Outcome.noConfusion h, hxf, t1, hxt, hxb⟩
    | exc m => exact ⟨fun n h => Outcome.noConfusion h, hxf, t1, hxt, hxb⟩

theorem tame_emit {e : Effect} (h : benign e = true) : Tame (emit e) := by
  intro env s
  exact ⟨fun n hx => Outcome.noConfusion hx, rfl, [e], rfl, by simp [h]⟩

theorem tame_logM (lvl : Level) (msg : Str) : Tame (logM lvl msg) :=
  tame_emit rfl

theorem tame_raiseA {α : Type} (m : Str) : Tame (raiseA (α := α) m) := by
  intro env s
  exact ⟨fun n h => Outcome.noConfusion h, rfl, [], trace_ext_nil rfl, rfl⟩

theorem tame_pyRaise {α : Type} (m : Str) : Tame (pyRaise (α := α) m) := by
  intro env s
  exact ⟨fun n h => Outcome.noConfusion h, rfl, [], trace_ext_nil rfl, rfl⟩

theorem tame_askEnv : Tame askEnv := by
  intro env s
  exact ⟨fun n h => Outcome.noConfusion h, rfl, [], trace_ext_nil rfl, rfl⟩

theorem tame_readAnswer : Tame readAnswer := by
  intro env s
  unfold readAnswer
  cases s.answers with
  | nil => exact ⟨fun n h => Outcome.noConfusion h, rfl, [], trace_ext_nil rfl, rfl⟩
  | cons a rest => exact ⟨fun n h => Outcome.noConfusion h, rfl, [], trace_ext_nil rfl, rfl⟩

theorem tame_inputM (msg : Str) : Tame (inputM msg) :=
  tame_mbind (tame_emit rfl) (fun _ => tame_readAnswer)

theorem tame_isfileM (p : Str) : Tame (isfileM p) := by
  intro env s
  exact ⟨fun n h => Outcome.noConfusion h, rfl, [], trace_ext_nil rfl, rfl⟩

theorem tame_isdirM (p : Str) : Tame (isdirM p) := by
  intro env s
  exact ⟨fun n h => Outcome.noConfusion h, rfl, [], trace_ext_nil rfl, rfl⟩

theorem tame_existsM (p : Str) : Tame (existsM p) := by
  intro env s
  exact ⟨fun n h => Outcome.noConfusion h, rfl, [], trace_ext_nil rfl, rfl⟩

theorem tame_readFileM (p : Str) : Tame (readFileM p) := by
  intro env s
  unfold readFileM
  rcases hfs : fsGet s.fs p with _ | c | _ | t
  · exact ⟨fun n h => Outcome.noConfusion h, rfl, [], trace_ext_nil rfl, rfl⟩
  · exact ⟨fun n h => Outcome.noConfusion h, rfl, [.readF p], rfl, rfl⟩
  · exact ⟨fun n h => Outcome.noConfusion h, rfl, [], trace_ext_nil rfl, rfl⟩
  · dsimp only
    rcases h2 : fsGet s.fs t with _ | c | _ | t2
    · exact ⟨fun n h => Outcome.noConfusion h, rfl, [], trace_ext_nil rfl, rfl⟩
    · exact ⟨fun n h => Outcome.noConfusion h, rfl, [.readF p], rfl, rfl⟩
    · exact ⟨fun n h => Outcome.noConfusion h, rfl, [], trace_ext_nil rfl, rfl⟩
    · exact ⟨fun n h => Outcome.noConfusion h, rfl, [], trace_ext_nil rfl, rfl⟩

theorem tame_ite {α : Type} (c : Prop) [Decidable c] {x y : M α}
    (hx : Tame x) (hy : Tame y) : Tame (if c then x else y) := by
  by_cases h : c
  · rw [if_pos h]; exact hx
  · rw [if_neg h]; exact hy

theorem tame_tryCatchAssert {α : Type} {body : M α} {handler : Str → M α}
    (hb : Tame body) (hh : ∀ m, Tame (handler m)) : Tame (tryCatchAssert body handler) := by
  intro env s
  obtain ⟨hbe, hbf, t1, hbt, hbb⟩ := hb env s
  unfold tryCatchAssert
  cases hox : body env s with
  | mk o s1 =>
    rw [hox] at hbe hbf hbt
    cases o with
    | assertFail m =>
        obtain ⟨hhe, hhf, t2, hht, hhb⟩ := hh m env s1
        refine ⟨hhe, by rw [hhf, hbf], t1 ++ t2, ?_, ?_⟩
        · rw [hht, hbt, List.append_assoc]
        · simp [List.all_append]
          exact ⟨by simpa using hbb, by simpa using hhb⟩
    | ok a => exact ⟨hbe, hbf, t1, hbt, hbb⟩
    | exited n => exact absurd rfl (hbe n)
    | exc m => exact ⟨fun n h => Outcome.noConfusion h, hbf, t1, hbt, hbb⟩

/-! ## Evaluation lemmas for the check wrapper -/

theorem interactive_handler_true (sil : Bool) (mode : CheckMode) (env : Env) (s : St) :
    interactive_handler sil mode true env s = (.ok true, s) := by
  unfold interactive_handler
  rw [if_neg (by simp)]
  rfl

theorem interactive_handler_notWarn {sil : Bool} {mode : CheckMode}
    (h : mode ≠ .throwWarn) (r : Bool) (env : Env) (s : St) :
    interactive_handler sil mode r env s = (.ok r, s) := by
  unfold interactive_handler
  rw [if_neg (by simp [h])]
  rfl

theorem throw_handler_true (mode : CheckMode) (msg : Option Str) (env : Env) (s : St) :
    throw_handler mode true msg env s = (.ok true, s) := by
  unfold throw_handler
  rw [if_pos rfl]
  rfl

theorem throw_handler_error_false (msg : Str) (env : Env) (s : St) :
    throw_handler .throwError false (some msg) env s = (.assertFail msg, s) := by
  unfold throw_handler
  rw [if_neg (by simp)]
  rfl

theorem runCheck_true_noprint {sil : Bool} {mode : CheckMode} {body : M (Bool × Str)}
    {env : Env} {s s' : St} {msg : Str}
    (hb : body env s = (.ok (true, msg), s')) :
    runCheck sil mode false body env s = (.ok true, s') := by
  unfold runCheck
  simp only [bindM_eq, pureM_eq]
  rw [mbind_ok hb]
  rw [if_neg (by simp)]
  rw [mbind_ok (show mpure () env s' = (.ok (), s') from rfl)]
  rw [mbind_ok (interactive_handler_true sil mode env s')]
  exact throw_handler_true mode (some msg) env s'

theorem runCheck_true_print {sil : Bool} {mode : CheckMode} {body : M (Bool × Str)}
    {env : Env} {s s' : St} {msg : Str}
    (hb : body env s = (.ok (true, msg), s')) :
    runCheck sil mode true body env s =
      (.ok true, { s' with trace := s'.trace ++ [.log (matchLogLevel mode true) msg] }) := by
  unfold runCheck
  simp only [bindM_eq, pureM_eq]
  rw [mbind_ok hb]
  rw [if_pos (by simp)]
  rw [mbind_ok (show logM (matchLogLevel mode true) msg env s' =
    (.ok (), { s' with trace := s'.trace ++ [.log (matchLogLevel mode true) msg] }) from rfl)]
  rw [mbind_ok (interactive_handler_true sil mode env _)]
  exact throw_handler_true mode (some msg) env _

theorem runCheck_throwError_false {sil : Bool} {ps : Bool} {body : M (Bool × Str)}
    {env : Env} {s s' : St} {msg : Str}
    (hb : body env s = (.ok (false, msg), s')) :
    runCheck sil .throwError ps body env s =
      (.assertFail msg, { s' with trace := s'.trace ++ [.log .error msg] }) := by
  unfold runCheck
  simp only [bindM_eq, pureM_eq]
  rw [mbind_ok hb]
  rw [if_pos (by simp)]
  rw [mbind_ok (show logM (matchLogLevel .throwError false) msg env s' =
    (.ok (), { s' with trace := s'.trace ++ [.log .error msg] }) from rfl)]
  rw [mbind_ok (interactive_handler_notWarn (by simp) false env _)]
  exact throw_handler_error_false msg env _

/-! ## Evaluation lemmas for `perform_checks_exit` -/

theorem andAllM_nil (env : Env) (s : St) : Checks.andAllM [] env s = (.ok true, s) := rfl

theorem andAllM_cons_eq (c : M Bool) (rest : List (M Bool)) :
    Checks.andAllM (c :: rest) =
      mbind c (fun b => if b = true then Checks.andAllM rest else mpure false) := rfl

theorem andAllM_cons_true {c : M Bool} {rest : List (M Bool)} {env : Env} {s s' : St}
    (h : c env s = (.ok true, s')) :
    Checks.andAllM (c :: rest) env s = Checks.andAllM rest env s' := by
  rw [andAllM_cons_eq, mbind_ok h, if_pos rfl]

theorem andAllM_cons_false {c : M Bool} {rest : List (M Bool)} {env : Env} {s s' : St}
    (h : c env s = (.ok false, s')) :
    Checks.andAllM (c :: rest) env s = (.ok false, s') := by
  rw [andAllM_cons_eq, mbind_ok h, if_neg (by simp)]
  rfl

theorem andAllM_cons_assertFail {c : M Bool} {rest : List (M Bool)} {env : Env}
    {s s' : St} {m : Str} (h : c env s = (.assertFail m, s')) :
    Checks.andAllM (c :: rest) env s = (.assertFail m, s') := by
  rw [andAllM_cons_eq, mbind_assertFail h]

theorem perform_ok {sil : Bool} {checks : List (M Bool)} {env : Env} {s s' : St}
    (h : Checks.andAllM checks env s = (.ok true, s')) :
    Checks.perform_checks_exit sil checks env s = (.ok true, s') := by
  unfold Checks.perform_checks_exit tryCatchAssert
  simp only [bindM_eq, pureM_eq]
  rw [mbind_ok h, if_pos rfl]
  rfl

theorem perform_false {sil : Bool} {checks : List (M Bool)} {env : Env} {s s' : St}
    (h : Checks.andAllM checks env s = (.ok false, s')) :
    Checks.perform_checks_exit sil checks env s =
      (.exited 1, { s' with trace := s'.trace ++ [.log .error (S "Checks failed")] }) := by
  unfold Checks.perform_checks_exit tryCatchAssert
  simp only [bindM_eq, pureM_eq]
  rw [mbind_ok h, if_neg (by simp)]
  rfl

theorem perform_assertFail {sil : Bool} {checks : List (M Bool)} {env : Env} {s s' : St}
    {m : Str} (h : Checks.andAllM checks env s = (.assertFail m, s')) :
    Checks.perform_checks_exit sil checks env s =
      (.exited 1, { s' with trace :=
        s'.trace ++ [.log .error (S "Assertion failed: " ++ m)] }) := by
  unfold Checks.perform_checks_exit tryCatchAssert
  simp only [bindM_eq]
  rw [mbind_assertFail h]
  rfl

/-! ## Evaluation lemmas for the individual checks -/

theorem whichCheck_ok {sil : Bool} {tool mN mY : Str} {env : Env} {s : St}
    (h : env.which.contains tool = true) :
    Checks.whichCheck sil tool mN mY env s = (.ok true, s) := by
  unfold Checks.whichCheck
  refine @runCheck_true_noprint sil .throwError _ env s s mY ?_
  show mbind askEnv _ env s = _
  rw [mbind_ok (show askEnv env s = (.ok env, s) from rfl)]
  rw [if_neg (by rw [h]; decide)]
  rfl

theorem user_is_root_ok {sil : Bool} {env : Env} {s : St} (h : env.euid = 0) :
    Checks.user_is_root sil env s = (.ok true, s) := by
  unfold Checks.user_is_root
  refine @runCheck_true_noprint sil .throwError _ env s s (S "Running as root") ?_
  show mbind askEnv _ env s = _
  rw [mbind_ok (show askEnv env s = (.ok env, s) from rfl)]
  rw [if_neg (by simp [h])]
  rfl

theorem docker_daemon_ok {sil : Bool} {env : Env} {s : St}
    (h : env.rc (S "docker info > /dev/null 2>&1") = 0) :
    Checks.docker_daemon sil env s =
      (.ok true, { s with trace := s.trace ++ [.run (S "docker info > /dev/null 2>&1")] }) := by
  unfold Checks.docker_daemon
  refine @runCheck_true_noprint sil .throwError _ env s
    { s with trace := s.trace ++ [.run (S "docker info > /dev/null 2>&1")] }
    (S "Docker is running") ?_
  show mbind (osSystem _) _ env s = _
  rw [mbind_ok (show osSystem (S "docker info > /dev/null 2>&1") env s =
    (.ok (env.rc (S "docker info > /dev/null 2>&1")),
     { s with trace := s.trace ++ [.run (S "docker info > /dev/null 2>&1")] }) from rfl)]
  rw [h]
  rfl

theorem nginx_test_config_ok {sil : Bool} {env : Env} {s : St}
    (h : env.rc (S "nginx -t") = 0) :
    Checks.nginx_test_config sil env s =
      (.ok true, { s with trace := s.trace ++ [.run (S "nginx -t")] }) := by
  unfold Checks.nginx_test_config
  refine @runCheck_true_noprint sil .throwError _ env s
    { s with trace := s.trace ++ [.run (S "nginx -t")] }
    (S "Nginx configuration is valid") ?_
  show mbind (osSystem _) _ env s = _
  rw [mbind_ok (show osSystem (S "nginx -t") env s =
    (.ok (env.rc (S "nginx -t")),
     { s with trace := s.trace ++ [.run (S "nginx -t")] }) from rfl)]
  rw [if_neg (by simp [h])]
  rfl

theorem file_exists_ok_file {sil : Bool} {p : Str} {env : Env} {s : St} {c : Str}
    (h : fsGet s.fs p = .file c) :
    Checks.file_exists sil p env s = (.ok true, s) := by
  unfold Checks.file_exists
  refine @runCheck_true_noprint sil .throwError _ env s s
    (S "File " ++ p ++ S " exists") ?_
  show mbind (existsM p) _ env s = _
  rw [mbind_ok (show existsM p env s = (.ok true, s) from by
    unfold existsM
    rw [h])]
  rfl

theorem file_exists_absent {sil : Bool} {p : Str} {env : Env} {s : St}
    (h : fsGet s.fs p = .absent) :
    Checks.file_exists sil p env s =
      (.assertFail (S "File " ++ p ++ S " does not exist"),
       { s with trace := s.trace ++ [.log .error (S "File " ++ p ++ S " does not exist")] }) := by
  unfold Checks.file_exists
  refine @runCheck_throwError_false sil false _ env s s
    (S "File " ++ p ++ S " does not exist") ?_
  show mbind (existsM p) _ env s = _
  rw [mbind_ok (show existsM p env s = (.ok false, s) from by
    unfold existsM
    rw [h])]
  rfl

/-! ## Claim C2: silent mode -/

/-- C2 is wrong about the code (the claim matches the documented intent
of `--silent`, the code does not implement it): `main` assigns
`SILENT = True` without a `global SILENT` declaration, so the
module-level flag read by `interactive_handler` stays `False`.  Running
the default pipeline with `--silent` in a directory already holding a
`.env` file still emits the confirmation prompt of the failing
warn-then-confirm check, and the declining answer aborts with exit
1 instead of proceeding with a warning. -/
theorem c2_silent_mode_code_bug :
    moduleSilent true = false ∧
    (mainRun { silent := true } envAllOk stC2).1 = .exited 1 ∧
    (Effect.prompt (S "Do you want to continue? [y/N]: ")) ∈
      (mainRun { silent := true } envAllOk stC2).2.trace := by
  refine ⟨rfl, by decide, by decide⟩

/-! ## Claim C3: collaborator failures -/

/-- C3 as stated is false: the proxy-daemon restart shells out with
`os.system('systemctl restart nginx')`, ignores the non-zero exit
status, logs success, and the pipeline continues (no abort, no non-zero
process exit from this step). -/
theorem c3_collaborator_counterexample :
    envRestartFails.rc (S "systemctl restart nginx") = 1 ∧
    (Actions.restart_nginx envRestartFails emptySt).1 = .ok () ∧
    (Actions.restart_nginx envRestartFails emptySt).2.trace =
      [.log .info (S "Restarting Nginx..."), .run (S "systemctl restart nginx"),
       .log .success (S "Nginx restarted")] := by
  refine ⟨by decide, rfl, by decide⟩

theorem restart_nginx_outcome (env : Env) (s : St) :
    (Actions.restart_nginx env s).1 = .ok () := rfl

theorem git_init_outcome (env : Env) (s : St) : (Actions.git_init env s).1 = .ok () := by
  unfold Actions.git_init existsM isdirM osSystem logM emit mpure
  simp only [bindM_eq, mbind]
  rcases fsGet s.fs (S ".git") with _ | c | _ | t <;> dsimp only <;>
    first
      | rfl
      | (rcases fsGet s.fs t with _ | c2 | _ | t2 <;> dsimp only <;> rfl)

theorem dns_mismatch_ok {sil : Bool} {host : Str} {env : Env} {s : St}
    (hip : env.ipMatches = true) :
    Checks.dns_mismatch sil host env s =
      (.ok true, { s with trace := s.trace ++ [.log (matchLogLevel .throwWarn true)
        (S "Hostname resolves to this machines public IP")] }) := by
  unfold Checks.dns_mismatch
  refine @runCheck_true_print sil .throwWarn _ env s s
    (S "Hostname resolves to this machines public IP") ?_
  show mbind askEnv _ env s = _
  rw [mbind_ok (show askEnv env s = (.ok env, s) from rfl)]
  rw [if_neg (by rw [hip]; decide)]
  rfl

theorem dns_ok {sil : Bool} {host : Str} {env : Env} {s : St}
    (hip : env.ipMatches = true) :
    ∃ t, Checks.dns sil host env s = (.ok true, { s with trace := s.trace ++ t }) ∧
      t.all benign = true := by
  unfold Checks.dns
  cases hdns : env.dns with
  | interrupt =>
      refine ⟨[.log (matchLogLevel .throwWarn true)
        (S "Continuing without waiting for DNS to resolve")], ?_, rfl⟩
      refine @runCheck_true_print sil .throwWarn _ env s s
        (S "Continuing without waiting for DNS to resolve") ?_
      show mbind askEnv _ env s = _
      rw [mbind_ok (show askEnv env s = (.ok env, s) from rfl), hdns]
      rfl
  | resolves =>
      refine ⟨[.log (matchLogLevel .throwWarn true)
          (S "Hostname resolves to this machines public IP"),
        .log (matchLogLevel .throwWarn true) (S "DNS is set up correctly")], ?_, rfl⟩
      have hstep : (do
            let env' ← askEnv
            match env'.dns with
            | .interrupt => mpure (true, S "Continuing without waiting for DNS to resolve")
            | .resolves => do
                let _ ← Checks.dns_mismatch sil host
                mpure (true, S "DNS is set up correctly") : M (Bool × Str)) env s =
          (.ok (true, S "DNS is set up correctly"),
           { s with trace := s.trace ++ [.log (matchLogLevel .throwWarn true)
             (S "Hostname resolves to this machines public IP")] }) := by
        show mbind askEnv _ env s = _
        rw [mbind_ok (show askEnv env s = (.ok env, s) from rfl), hdns]
        show mbind (Checks.dns_mismatch sil host) _ env s = _
        rw [mbind_ok (dns_mismatch_ok hip)]
        rfl
      rw [runCheck_true_print hstep]
      congr 1
      simp [List.append_assoc]

theorem certbot_action_ok {sil : Bool} {host : Str} {env : Env} {s : St}
    (hn : env.which.contains (S "nginx") = true)
    (hc : env.which.contains (S "certbot") = true)
    (hip : env.ipMatches = true) :
    (Actions.certbot sil host env s).1 = .ok () := by
  unfold Actions.certbot
  simp only [bindM_eq]
  rw [mbind_ok (perform_ok (by
    rw [andAllM_cons_true (show Checks.nginx sil env s = (.ok true, s) from whichCheck_ok hn)]
    rw [andAllM_cons_true (show Checks.certbot sil env s = (.ok true, s) from whichCheck_ok hc)]
    exact andAllM_nil env s))]
  obtain ⟨t, ht, _⟩ := @dns_ok sil host env s hip
  rw [mbind_ok ht]
  rfl

theorem logM_eval (lvl : Level) (msg : Str) (env : Env) (s : St) :
    logM lvl msg env s = (.ok (), { s with trace := s.trace ++ [.log lvl msg] }) := rfl

theorem osSystem_eval (cmd : Str) (env : Env) (s : St) :
    osSystem cmd env s = (.ok (env.rc cmd), { s with trace := s.trace ++ [.run cmd] }) := rfl

theorem fsGet_st {s : St} {t : List Effect} {p : Str} {e : FsEntry}
    (h : fsGet s.fs p = e) :
    fsGet ({ s with trace := t } : St).fs p = e := h

theorem tryCatchAssert_exited {α : Type} {x : M α} {h : Str → M α} {env : Env}
    {s s' : St} {n : Nat} (hx : x env s = (.exited n, s')) :
    tryCatchAssert x h env s = (.exited n, s') := by
  unfold tryCatchAssert
  rw [hx]

theorem install_checks_ok {sil : Bool} {env : Env}
    (heuid : env.euid = 0)
    (hd : env.which.contains (S "docker") = true)
    (hdc : env.which.contains (S "docker-compose") = true)
    (hdd : env.rc (S "docker info > /dev/null 2>&1") = 0)
    (hn : env.which.contains (S "nginx") = true)
    (hnt : env.rc (S "nginx -t") = 0)
    (hsy : env.which.contains (S "systemctl") = true)
    (s : St) :
    Checks.andAllM [Checks.user_is_root sil, Checks.docker sil, Checks.docker_compose sil,
      Checks.docker_daemon sil, Checks.nginx sil, Checks.nginx_test_config sil,
      Checks.systemd sil, mpure true, mpure true, mpure true] env s =
    (.ok true, { s with trace :=
      (s.trace ++ [.run (S "docker info > /dev/null 2>&1")]) ++ [.run (S "nginx -t")] }) := by
  rw [andAllM_cons_true (show Checks.user_is_root sil env s = (.ok true, s) from
    user_is_root_ok heuid)]
  rw [andAllM_cons_true (show Checks.docker sil env s = (.ok true, s) from whichCheck_ok hd)]
  rw [andAllM_cons_true (show Checks.docker_compose sil env s = (.ok true, s) from
    whichCheck_ok hdc)]
  rw [andAllM_cons_true (docker_daemon_ok hdd)]
  generalize hX :
    ({ s with trace := s.trace ++ [Effect.run (S "docker info > /dev/null 2>&1")] } : St) = X
  rw [andAllM_cons_true (show Checks.nginx sil env X = (.ok true, X) from whichCheck_ok hn)]
  rw [andAllM_cons_true (nginx_test_config_ok hnt)]
  rw [andAllM_cons_true (show Checks.systemd sil env
      ({ X with trace := X.trace ++ [Effect.run (S "nginx -t")] } : St) =
      (.ok true, { X with trace := X.trace ++ [Effect.run (S "nginx -t")] }) from
    whichCheck_ok hsy)]
  subst hX
  rfl

theorem uninstall_checks_ok {sil : Bool} {env : Env}
    (heuid : env.euid = 0)
    (hd : env.which.contains (S "docker") = true)
    (hdc : env.which.contains (S "docker-compose") = true)
    (hdd : env.rc (S "docker info > /dev/null 2>&1") = 0)
    (hn : env.which.contains (S "nginx") = true)
    (hsy : env.which.contains (S "systemctl") = true)
    (s : St) :
    Checks.andAllM [mpure true, Checks.user_is_root sil, Checks.docker sil,
      Checks.docker_compose sil, Checks.docker_daemon sil, Checks.nginx sil,
      Checks.systemd sil] env s =
    (.ok true, { s with trace := s.trace ++ [.run (S "docker info > /dev/null 2>&1")] }) := by
  rw [andAllM_cons_true (show mpure true env s = (.ok true, s) from rfl)]
  rw [andAllM_cons_true (show Checks.user_is_root sil env s = (.ok true, s) from
    user_is_root_ok heuid)]
  rw [andAllM_cons_true (show Checks.docker sil env s = (.ok true, s) from whichCheck_ok hd)]
  rw [andAllM_cons_true (show Checks.docker_compose sil env s = (.ok true, s) from
    whichCheck_ok hdc)]
  rw [andAllM_cons_true (docker_daemon_ok hdd)]
  generalize hX :
    ({ s with trace := s.trace ++ [Effect.run (S "docker info > /dev/null 2>&1")] } : St) = X
  rw [andAllM_cons_true (show Checks.nginx sil env X = (.ok true, X) from whichCheck_ok hn)]
  rw [andAllM_cons_true (show Checks.systemd sil env X = (.ok true, X) from whichCheck_ok hsy)]
  subst hX
  rfl

theorem docker_compose_down_fatal {env : Env} {s : St}
    (hdown : env.rc (S "docker-compose down") ≠ 0) :
    Actions.docker_compose_down env s = (.exited 1, { s with trace :=
      ((s.trace ++ [.log .info (S "Stopping docker containers...")]) ++
        [.run (S "docker-compose down")]) ++
        [.log .error (S "Failed to stop docker containers")] }) := by
  unfold Actions.docker_compose_down
  simp only [bindM_eq]
  rw [mbind_ok (logM_eval .info (S "Stopping docker containers...") env s)]
  rw [mbind_ok (osSystem_eval (S "docker-compose down") env _)]
  rw [if_pos hdown]
  rfl

theorem uninstall_body_fatal {host : Str} {env : Env} {s : St}
    (hdown : env.rc (S "docker-compose down") ≠ 0) :
    (mbind Actions.docker_compose_down fun _ =>
      mbind (Actions.revert_nginx_conf host) fun _ => Actions.restart_nginx) env s =
    (.exited 1, { s with trace :=
      ((s.trace ++ [.log .info (S "Stopping docker containers...")]) ++
        [.run (S "docker-compose down")]) ++
        [.log .error (S "Failed to stop docker containers")] }) :=
  mbind_exited (docker_compose_down_fatal hdown) _

theorem install_compose_up_fatal {sil : Bool} {host : Str} {env : Env} {s : St}
    {c1 c2 c3 : Str}
    (hf1 : fsGet s.fs (S "docker-compose.yml") = .file c1)
    (hf2 : fsGet s.fs (S ".env") = .file c2)
    (hf3 : fsGet s.fs (host ++ S ".nginx.conf") = .file c3)
    (heuid : env.euid = 0)
    (hd : env.which.contains (S "docker") = true)
    (hdc : env.which.contains (S "docker-compose") = true)
    (hdd : env.rc (S "docker info > /dev/null 2>&1") = 0)
    (hn : env.which.contains (S "nginx") = true)
    (hnt : env.rc (S "nginx -t") = 0)
    (hsy : env.which.contains (S "systemctl") = true)
    (hup : env.rc (S "docker-compose up -d") ≠ 0) :
    (Actions.install sil host env s).1 = .exited 1 ∧
    (Actions.install sil host env s).2.fs = s.fs := by
  have heval : Actions.install sil host env s = (.exited 1, { s with trace :=
      (((((s.trace ++ [.log .info (S "Installing...")])
        ++ [.run (S "docker info > /dev/null 2>&1")]) ++ [.run (S "nginx -t")])
        ++ [.log .info (S "Running docker-compose...")])
        ++ [.run (S "docker-compose up -d")])
        ++ [.log .error (S "Failed to run docker-compose")] }) := by
    unfold Actions.install
    simp only [bindM_eq]
    rw [mbind_ok (logM_eval .info (S "Installing...") env s)]
    rw [mbind_ok (file_exists_ok_file (fsGet_st hf1))]
    rw [mbind_ok (file_exists_ok_file (fsGet_st hf2))]
    rw [mbind_ok (file_exists_ok_file (fsGet_st hf3))]
    rw [mbind_ok (perform_ok (install_checks_ok heuid hd hdc hdd hn hnt hsy _))]
    rw [mbind_ok (logM_eval .info (S "Running docker-compose...") env _)]
    rw [mbind_ok (osSystem_eval (S "docker-compose up -d") env _)]
    rw [if_pos hup]
    rfl
  exact ⟨by rw [heval], by rw [heval]⟩

theorem uninstall_compose_down_fatal {sil : Bool} {host : Str} {env : Env} {s : St}
    {c1 : Str}
    (hf1 : fsGet s.fs (S "/etc/nginx/sites-available/" ++ host ++ S ".nginx.conf") = .file c1)
    (heuid : env.euid = 0)
    (hd : env.which.contains (S "docker") = true)
    (hdc : env.which.contains (S "docker-compose") = true)
    (hdd : env.rc (S "docker info > /dev/null 2>&1") = 0)
    (hn : env.which.contains (S "nginx") = true)
    (hsy : env.which.contains (S "systemctl") = true)
    (hdown : env.rc (S "docker-compose down") ≠ 0) :
    (Actions.uninstall sil host env s).1 = .exited 1 ∧
    (Actions.uninstall sil host env s).2.fs = s.fs := by
  have heval : Actions.uninstall sil host env s = (.exited 1, { s with trace :=
      ((((s.trace ++ [.log .info (S "Uninstalling...")])
        ++ [.run (S "docker info > /dev/null 2>&1")])
        ++ [.log .info (S "Stopping docker containers...")])
        ++ [.run (S "docker-compose down")])
        ++ [.log .error (S "Failed to stop docker containers")] }) := by
    unfold Actions.uninstall
    simp only [bindM_eq]
    rw [mbind_ok (logM_eval .info (S "Uninstalling...") env s)]
    rw [mbind_ok (file_exists_ok_file (fsGet_st hf1))]
    rw [mbind_ok (perform_ok (uninstall_checks_ok heuid hd hdc hdd hn hsy _))]
    rw [mbind_exited (tryCatchAssert_exited (uninstall_body_fatal hdown))]
  exact ⟨by rw [heval], by rw [heval]⟩

theorem cleanup_compose_down_fatal {env : Env} {s : St}
    (h : env.rc (S "docker-compose down --volumes") ≠ 0) :
    Actions.cleanup env s = (.exited 1, { s with trace :=
      (((s.trace ++ [.log .info (S "Cleaning up...")])
        ++ [.log .info (S "Stopping docker containers and removing volumes...")])
        ++ [.run (S "docker-compose down --volumes")])
        ++ [.log .error (S "Failed to stop docker containers")] }) := by
  unfold Actions.cleanup
  simp only [bindM_eq]
  rw [mbind_ok (logM_eval .info (S "Cleaning up...") env s)]
  rw [mbind_ok (logM_eval .info (S "Stopping docker containers and removing volumes...") env _)]
  rw [mbind_ok (osSystem_eval (S "docker-compose down --volumes") env _)]
  rw [if_pos h]
  rfl

/-- C3 (amended): non-zero exits from orchestration `docker-compose up -d`
during install, `docker-compose down` during uninstall and
`docker-compose down --volumes` during cleanup are fatal — the process
exits 1 with the file system untouched — but the proxy-daemon restart, the version-control init
and the certificate issuer ignore the invoked tool's exit status and the
pipeline continues normally, so the uniform fatality stated by the spec
holds only for the orchestration steps. -/
theorem c3_collaborator_failures_amended :
    (∀ env s, (Actions.restart_nginx env s).1 = .ok ()) ∧
    (∀ env s, (Actions.git_init env s).1 = .ok ()) ∧
    (∀ sil host env s,
      env.which.contains (S "nginx") = true →
      env.which.contains (S "certbot") = true →
      env.ipMatches = true →
      (Actions.certbot sil host env s).1 = .ok ()) ∧
    (∀ sil host env s c1 c2 c3,
      fsGet s.fs (S "docker-compose.yml") = .file c1 →
      fsGet s.fs (S ".env") = .file c2 →
      fsGet s.fs (host ++ S ".nginx.conf") = .file c3 →
      env.euid = 0 →
      env.which.contains (S "docker") = true →
      env.which.contains (S "docker-compose") = true →
      env.rc (S "docker info > /dev/null 2>&1") = 0 →
      env.which.contains (S "nginx") = true →
      env.rc (S "nginx -t") = 0 →
      env.which.contains (S "systemctl") = true →
      env.rc (S "docker-compose up -d") ≠ 0 →
      (Actions.install sil host env s).1 = .exited 1 ∧
      (Actions.install sil host env s).2.fs = s.fs) ∧
    (∀ sil host env s c1,
      fsGet s.fs (S "/etc/nginx/sites-available/" ++ host ++ S ".nginx.conf") = .file c1 →
      env.euid = 0 →
      env.which.contains (S "docker") = true →
      env.which.contains (S "docker-compose") = true →
      env.rc (S "docker info > /dev/null 2>&1") = 0 →
      env.which.contains (S "nginx") = true →
      env.which.contains (S "systemctl") = true →
      env.rc (S "docker-compose down") ≠ 0 →
      (Actions.uninstall sil host env s).1 = .exited 1 ∧
      (Actions.uninstall sil host env s).2.fs = s.fs) ∧
    (∀ env s,
      env.rc (S "docker-compose down --volumes") ≠ 0 →
      (Actions.cleanup env s).1 = .exited 1 ∧
      (Actions.cleanup env s).2.fs = s.fs) := by
  refine ⟨restart_nginx_outcome, git_init_outcome, ?_, ?_, ?_, ?_⟩
  · intro sil host env s hn hc hip
    exact certbot_action_ok hn hc hip
  · intro sil host env s c1 c2 c3 hf1 hf2 hf3 heuid hd hdc hdd hn hnt hsy hup
    exact install_compose_up_fatal hf1 hf2 hf3 heuid hd hdc hdd hn hnt hsy hup
  · intro sil host env s c1 hf1 heuid hd hdc hdd hn hsy hdown
    exact uninstall_compose_down_fatal hf1 heuid hd hdc hdd hn hsy hdown
  · intro env s hvol
    have heval := @cleanup_compose_down_fatal env s hvol
    exact ⟨by rw [heval], by rw [heval]⟩

set_option maxRecDepth 4000 in
theorem c3_collaborator_failures_amended_witness :
    (Actions.restart_nginx envRestartFails emptySt).1 = .ok () ∧
    (Actions.certbot false (S "example.com") envAllOk emptySt).1 = .ok () ∧
    (Actions.install false (S "localhost") envUpFails stInstallReady).1 = .exited 1 ∧
    (Actions.install false (S "localhost") envUpFails stInstallReady).2.fs =
      stInstallReady.fs ∧
    (Actions.uninstall false (S "localhost") envDownFails stUninstallReady).1 = .exited 1 ∧
    (Actions.uninstall false (S "localhost") envDownFails stUninstallReady).2.fs =
      stUninstallReady.fs ∧
    (Actions.cleanup envVolFails emptySt).1 = .exited 1 ∧
    (Actions.cleanup envVolFails emptySt).2.fs = emptySt.fs := by
  obtain ⟨h1, h2, h3, h4, h5, h6⟩ := c3_collaborator_failures_amended
  refine ⟨h1 envRestartFails emptySt,
    h3 false (S "example.com") envAllOk emptySt (by decide) (by decide) rfl, ?_⟩
  obtain ⟨hi1, hi2⟩ := h4 false (S "localhost") envUpFails stInstallReady
    generate_docker_compose dotenvPersisted (S "conf")
    (by decide) (by decide) (by decide) rfl (by decide) (by decide) (by decide)
    (by decide) (by decide) (by decide) (by decide)
  obtain ⟨hu1, hu2⟩ := h5 false (S "localhost") envDownFails stUninstallReady (S "conf")
    (by decide) rfl (by decide) (by decide) (by decide) (by decide) (by decide) (by decide)
  obtain ⟨hc1, hc2⟩ := h6 envVolFails emptySt (by decide)
  exact ⟨hi1, hi2, hu1, hu2, hc1, hc2⟩

theorem tryCatchAssert_ok {α : Type} {x : M α} {h : Str → M α} {env : Env}
    {s s' : St} {a : α} (hx : x env s = (.ok a, s')) :
    tryCatchAssert x h env s = (.ok a, s') := by
  unfold tryCatchAssert
  rw [hx]

theorem removeFileM_absent {p : Str} {env : Env} {s : St}
    (h : fsGet s.fs p = .absent) :
    removeFileM p env s = (.exc (S "FileNotFoundError"), s) := by
  unfold removeFileM
  rw [h]

theorem removeFileM_file {p : Str} {env : Env} {s : St} {c : Str}
    (h : fsGet s.fs p = .file c) :
    removeFileM p env s =
      (.ok (), { s with fs := fsSet s.fs p .absent, trace := s.trace ++ [.remove p] }) := by
  unfold removeFileM
  rw [h]

theorem tryCatchAll_exc {α : Type} {x : M α} {hd : M α} {env : Env} {s s' : St} {m : Str}
    (hx : x env s = (.exc m, s')) :
    tryCatchAll x hd env s = hd env s' := by
  unfold tryCatchAll
  rw [hx]

theorem docker_compose_down_ok {env : Env} {s : St}
    (h : env.rc (S "docker-compose down") = 0) :
    Actions.docker_compose_down env s = (.ok (), { s with trace :=
      ((s.trace ++ [.log .info (S "Stopping docker containers...")]) ++
        [.run (S "docker-compose down")]) ++
        [.log .success (S "Docker containers stopped")] }) := by
  unfold Actions.docker_compose_down
  simp only [bindM_eq]
  rw [mbind_ok (logM_eval .info (S "Stopping docker containers...") env s)]
  rw [mbind_ok (osSystem_eval (S "docker-compose down") env _)]
  rw [if_neg (by rw [h]; exact fun hh => hh rfl)]
  rfl

theorem revert_nginx_conf_enabled_missing {host : Str} {env : Env} {s : St}
    {fs0 : FS} {c : Str}
    (hfs : s.fs = fs0)
    (hEn : fsGet fs0 (S "/etc/nginx/sites-enabled/" ++ host ++ S ".nginx.conf") = .absent)
    (hAv : fsGet fs0 (S "/etc/nginx/sites-available/" ++ host ++ S ".nginx.conf") = .file c) :
    Actions.revert_nginx_conf host env s = (.ok (),
      { s with
        fs := fsSet s.fs (S "/etc/nginx/sites-available/" ++ host ++ S ".nginx.conf") .absent,
        trace := ((s.trace ++ [.log .info (S "Reverting Nginx configuration...")]) ++
          [.remove (S "/etc/nginx/sites-available/" ++ host ++ S ".nginx.conf")]) ++
          [.log .success (S "Nginx configuration reverted")] }) := by
  subst hfs
  unfold Actions.revert_nginx_conf
  simp only [bindM_eq]
  rw [mbind_ok (logM_eval .info (S "Reverting Nginx configuration...") env s)]
  rw [mbind_ok ((tryCatchAll_exc (removeFileM_absent (fsGet_st hEn))).trans rfl)]
  rw [mbind_ok (removeFileM_file (fsGet_st hAv))]
  rfl

theorem uninstall_body_ok {host : Str} {env : Env} {s : St} {fs0 : FS} {c : Str}
    (hfs : s.fs = fs0)
    (hAv : fsGet fs0 (S "/etc/nginx/sites-available/" ++ host ++ S ".nginx.conf") = .file c)
    (hEn : fsGet fs0 (S "/etc/nginx/sites-enabled/" ++ host ++ S ".nginx.conf") = .absent)
    (hdown : env.rc (S "docker-compose down") = 0) :
    (mbind Actions.docker_compose_down fun _ =>
      mbind (Actions.revert_nginx_conf host) fun _ => Actions.restart_nginx) env s =
    (.ok (), { s with
      fs := fsSet s.fs (S "/etc/nginx/sites-available/" ++ host ++ S ".nginx.conf") .absent,
      trace := ((((((((s.trace
        ++ [.log .info (S "Stopping docker containers...")])
        ++ [.run (S "docker-compose down")])
        ++ [.log .success (S "Docker containers stopped")])
        ++ [.log .info (S "Reverting Nginx configuration...")])
        ++ [.remove (S "/etc/nginx/sites-available/" ++ host ++ S ".nginx.conf")])
        ++ [.log .success (S "Nginx configuration reverted")])
        ++ [.log .info (S "Restarting Nginx...")])
        ++ [.run (S "systemctl restart nginx")])
        ++ [.log .success (S "Nginx restarted")] }) := by
  rw [mbind_ok (docker_compose_down_ok hdown)]
  rw [mbind_ok (revert_nginx_conf_enabled_missing (show
    ({ s with trace :=
      ((s.trace ++ [Effect.log .info (S "Stopping docker containers...")]) ++
        [Effect.run (S "docker-compose down")]) ++
        [Effect.log .success (S "Docker containers stopped")] } : St).fs = fs0 from hfs)
    hEn hAv)]
  rfl

theorem uninstall_available_missing {sil : Bool} {host : Str} {env : Env} {s : St}
    (h : fsGet s.fs (S "/etc/nginx/sites-available/" ++ host ++ S ".nginx.conf") = .absent) :
    Actions.uninstall sil host env s =
      (.assertFail (S "File " ++ (S "/etc/nginx/sites-available/" ++ host ++
          S ".nginx.conf") ++ S " does not exist"),
       { s with trace := (s.trace ++ [.log .info (S "Uninstalling...")]) ++
         [.log .error (S "File " ++ (S "/etc/nginx/sites-available/" ++ host ++
           S ".nginx.conf") ++ S " does not exist")] }) := by
  unfold Actions.uninstall
  simp only [bindM_eq]
  rw [mbind_ok (logM_eval .info (S "Uninstalling...") env s)]
  rw [mbind_assertFail (file_exists_absent (fsGet_st h))]

theorem uninstall_enabled_missing_ok {sil : Bool} {host : Str} {env : Env} {s : St} {c : Str}
    (hAv : fsGet s.fs (S "/etc/nginx/sites-available/" ++ host ++ S ".nginx.conf") = .file c)
    (hEn : fsGet s.fs (S "/etc/nginx/sites-enabled/" ++ host ++ S ".nginx.conf") = .absent)
    (heuid : env.euid = 0)
    (hd : env.which.contains (S "docker") = true)
    (hdc : env.which.contains (S "docker-compose") = true)
    (hdd : env.rc (S "docker info > /dev/null 2>&1") = 0)
    (hn : env.which.contains (S "nginx") = true)
    (hsy : env.which.contains (S "systemctl") = true)
    (hdown : env.rc (S "docker-compose down") = 0) :
    (Actions.uninstall sil host env s).1 = .ok () := by
  unfold Actions.uninstall
  simp only [bindM_eq]
  rw [mbind_ok (logM_eval .info (S "Uninstalling...") env s)]
  rw [mbind_ok (file_exists_ok_file (fsGet_st hAv))]
  rw [mbind_ok (perform_ok (uninstall_checks_ok heuid hd hdc hdd hn hsy _))]
  rw [mbind_ok (tryCatchAssert_ok (uninstall_body_ok (show
    ({ ({ s with trace := s.trace ++ [Effect.log .info (S "Uninstalling...")] } : St) with
       trace := ({ s with trace :=
         s.trace ++ [Effect.log .info (S "Uninstalling...")] } : St).trace ++
         [Effect.run (S "docker info > /dev/null 2>&1")] } : St).fs = s.fs from rfl)
    hAv hEn hdown))]
  rfl

/-- C7: a bare `--uninstall` run whose hostname has no site file in
`/etc/nginx/sites-available` exits 1 — at the action level the missing
available-file raises the check's AssertionError before any external
tool is invoked and without touching the file system, and the main
handler turns that into exit status 1 — while with the available file
present a missing enabled-symlink is tolerated: the `os.remove` of the
symlink is wrapped in a bare try/except and the uninstall completes
normally. -/
theorem c7_uninstall_preconditions :
    ((mainRun argsUninstallOnly envAllOk stWithDotenv).1 = .exited 1 ∧
     (mainRun argsUninstallOnly envAllOk stWithDotenv).2.fs = stWithDotenv.fs ∧
     (mainRun argsUninstallOnly envAllOk stWithDotenv).2.trace.all notRun = true) ∧
    (∀ sil host env s,
      fsGet s.fs (S "/etc/nginx/sites-available/" ++ host ++ S ".nginx.conf") = .absent →
      Actions.uninstall sil host env s =
        (.assertFail (S "File " ++ (S "/etc/nginx/sites-available/" ++ host ++
            S ".nginx.conf") ++ S " does not exist"),
         { s with trace := (s.trace ++ [.log .info (S "Uninstalling...")]) ++
           [.log .error (S "File " ++ (S "/etc/nginx/sites-available/" ++ host ++
             S ".nginx.conf") ++ S " does not exist")] })) ∧
    (∀ sil host env s c,
      fsGet s.fs (S "/etc/nginx/sites-available/" ++ host ++ S ".nginx.conf") = .file c →
      fsGet s.fs (S "/etc/nginx/sites-enabled/" ++ host ++ S ".nginx.conf") = .absent →
      env.euid = 0 →
      env.which.contains (S "docker") = true →
      env.which.contains (S "docker-compose") = true →
      env.rc (S "docker info > /dev/null 2>&1") = 0 →
      env.which.contains (S "nginx") = true →
      env.which.contains (S "systemctl") = true →
      env.rc (S "docker-compose down") = 0 →
      (Actions.uninstall sil host env s).1 = .ok ()) := by
  refine ⟨by decide, ?_, ?_⟩
  · intro sil host env s h
    exact uninstall_available_missing h
  · intro sil host env s c hAv hEn heuid hd hdc hdd hn hsy hdown
    exact uninstall_enabled_missing_ok hAv hEn heuid hd hdc hdd hn hsy hdown

theorem c7_uninstall_preconditions_witness :
    (Actions.uninstall false (S "localhost") envAllOk emptySt).1 =
      .assertFail (S "File " ++ (S "/etc/nginx/sites-available/" ++ S "localhost" ++
        S ".nginx.conf") ++ S " does not exist") ∧
    (Actions.uninstall false (S "localhost") envAllOk stUninstallReady).1 = .ok () := by
  obtain ⟨_, hA, hB⟩ := c7_uninstall_preconditions
  constructor
  · rw [hA false (S "localhost") envAllOk emptySt rfl]
  · exact hB false (S "localhost") envAllOk stUninstallReady (S "conf")
      (by decide) (by decide) rfl (by decide) (by decide) rfl (by decide) (by decide) rfl

theorem existsM_dir {p : Str} {env : Env} {s : St} (h : fsGet s.fs p = .dir) :
    existsM p env s = (.ok true, s) := by
  unfold existsM
  rw [h]

theorem existsM_file {p : Str} {env : Env} {s : St} {c : Str}
    (h : fsGet s.fs p = .file c) :
    existsM p env s = (.ok true, s) := by
  unfold existsM
  rw [h]

theorem existsM_absent {p : Str} {env : Env} {s : St} (h : fsGet s.fs p = .absent) :
    existsM p env s = (.ok false, s) := by
  unfold existsM
  rw [h]

theorem isdirM_dir {p : Str} {env : Env} {s : St} (h : fsGet s.fs p = .dir) :
    isdirM p env s = (.ok true, s) := by
  unfold isdirM
  rw [h]

theorem isdirM_file {p : Str} {env : Env} {s : St} {c : Str}
    (h : fsGet s.fs p = .file c) :
    isdirM p env s = (.ok false, s) := by
  unfold isdirM
  rw [h]

theorem isdirM_absent {p : Str} {env : Env} {s : St} (h : fsGet s.fs p = .absent) :
    isdirM p env s = (.ok false, s) := by
  unfold isdirM
  rw [h]

theorem isfileM_file {p : Str} {env : Env} {s : St} {c : Str}
    (h : fsGet s.fs p = .file c) :
    isfileM p env s = (.ok true, s) := by
  unfold isfileM
  rw [h]

theorem isfileM_absent {p : Str} {env : Env} {s : St} (h : fsGet s.fs p = .absent) :
    isfileM p env s = (.ok false, s) := by
  unfold isfileM
  rw [h]

theorem readFileM_file {p : Str} {env : Env} {s : St} {c : Str}
    (h : fsGet s.fs p = .file c) :
    readFileM p env s = (.ok c, { s with trace := s.trace ++ [.readF p] }) := by
  unfold readFileM
  rw [h]

theorem writeFileM_absent_ok {p c : Str} {env : Env} {s : St}
    (hw : env.writable = true) (h : fsGet s.fs p = .absent) :
    writeFileM p c env s =
      (.ok (), { s with fs := fsSet s.fs p (.file c), trace := s.trace ++ [.write p c] }) := by
  unfold writeFileM
  rw [if_pos hw, h]

theorem appendFileM_file_ok {p c : Str} {env : Env} {s : St} {old : Str}
    (hw : env.writable = true) (h : fsGet s.fs p = .file old) :
    appendFileM p c env s =
      (.ok (), { s with
        fs := fsSet s.fs p (.file (old ++ c)),
        trace := s.trace ++ [.append p c] }) := by
  unfold appendFileM
  rw [if_pos hw, h]

theorem fsGet_fsSet_same (fs : FS) (p : Str) (e : FsEntry) :
    fsGet (fsSet fs p e) p = e := by
  induction fs with
  | nil => simp [fsSet, fsGet]
  | cons pe rest ih =>
      rcases pe with ⟨q, e'⟩
      by_cases h : q = p
      · simp [fsSet, fsGet, h]
      · simp [fsSet, fsGet, h, ih]

theorem pyContains_at (pre post needle : Str) :
    pyContains (pre ++ (needle ++ post)) needle = true := by
  unfold pyContains
  rw [List.any_eq_true]
  refine ⟨pre.length, ?_, ?_⟩
  · rw [List.mem_range]
    simp [List.length_append]
    omega
  · rw [List.drop_left]
    rw [List.isPrefixOf_iff_prefix]
    exact List.prefix_append needle post

theorem gitignore_fresh_contains (db_mnt : Str) :
    pyContains (generate_dotgitignore db_mnt) db_mnt = true := by
  have h : generate_dotgitignore db_mnt =
      S "# Ignore the database data folder\n" ++ (db_mnt ++ S "/") := by
    unfold generate_dotgitignore
    simp [List.append_assoc]
  rw [h]
  exact pyContains_at _ _ _

theorem gitignore_append_contains (old db_mnt : Str) :
    pyContains (old ++ ('\n' :: generate_dotgitignore db_mnt)) db_mnt = true := by
  have h : old ++ ('\n' :: generate_dotgitignore db_mnt) =
      (old ++ ('\n' :: S "# Ignore the database data folder\n")) ++ (db_mnt ++ S "/") := by
    unfold generate_dotgitignore
    simp [List.append_assoc]
  rw [h]
  exact pyContains_at _ _ _

theorem create_docker_compose_dir {env : Env} {s : St}
    (h : fsGet s.fs (S "docker-compose.yml") = .dir) :
    Actions.create_docker_compose env s =
      (.assertFail (S "docker-compose.yml is a directory"), s) := by
  unfold Actions.create_docker_compose
  simp only [bindM_eq]
  rw [mbind_ok (existsM_dir h)]
  rw [mbind_ok (isdirM_dir h)]
  rfl

theorem create_docker_compose_file {env : Env} {s : St} {c : Str}
    (h : fsGet s.fs (S "docker-compose.yml") = .file c) :
    Actions.create_docker_compose env s = (.ok (),
      { s with trace := s.trace ++
        [.log .warn (S "docker-compose.yml already exists, skipping")] }) := by
  unfold Actions.create_docker_compose
  simp only [bindM_eq]
  rw [mbind_ok (existsM_file h)]
  rw [mbind_ok (isdirM_file h)]
  rw [if_neg (by decide)]
  rw [mbind_ok (isfileM_file h)]
  rfl

theorem create_docker_compose_absent {env : Env} {s : St}
    (hw : env.writable = true)
    (h : fsGet s.fs (S "docker-compose.yml") = .absent) :
    Actions.create_docker_compose env s = (.ok (),
      { s with
        fs := fsSet s.fs (S "docker-compose.yml") (.file generate_docker_compose),
        trace := (s.trace ++ [.write (S "docker-compose.yml") generate_docker_compose]) ++
          [.log .success (S "Docker Compose configuration created")] }) := by
  unfold Actions.create_docker_compose
  simp only [bindM_eq]
  rw [mbind_ok (existsM_absent h)]
  rw [mbind_ok (isdirM_absent h)]
  rw [if_neg (by decide)]
  rw [mbind_ok (isfileM_absent h)]
  rw [if_neg (by decide)]
  rw [mbind_ok (writeFileM_absent_ok hw h)]
  rfl

theorem create_dotenv_dir {host : Str} {hp : PyVal} {db : Str} {p1 p2 : Option Str}
    {env : Env} {s : St}
    (h : fsGet s.fs (S ".env") = .dir) :
    Actions.create_dotenv host hp db p1 p2 env s =
      (.assertFail (S ".env is a directory"), s) := by
  unfold Actions.create_dotenv
  simp only [bindM_eq]
  rw [mbind_ok (existsM_dir h)]
  rw [mbind_ok (isdirM_dir h)]
  rfl

theorem create_dotenv_file {host : Str} {hp : PyVal} {db : Str} {p1 p2 : Option Str}
    {env : Env} {s : St} {c : Str}
    (h : fsGet s.fs (S ".env") = .file c) :
    Actions.create_dotenv host hp db p1 p2 env s = (.ok (),
      { s with trace := s.trace ++
        [.log .warn (S ".env file already exists, skipping")] }) := by
  unfold Actions.create_dotenv
  simp only [bindM_eq]
  rw [mbind_ok (existsM_file h)]
  rw [mbind_ok (isdirM_file h)]
  rw [if_neg (by decide)]
  rw [mbind_ok (isfileM_file h)]
  rfl

theorem create_dotenv_absent {host : Str} {hp : PyVal} {db : Str} {p1 p2 : Option Str}
    {env : Env} {s : St}
    (hw : env.writable = true)
    (h : fsGet s.fs (S ".env") = .absent) :
    Actions.create_dotenv host hp db p1 p2 env s = (.ok (),
      { s with
        fs := fsSet s.fs (S ".env")
          (.file (generate_dotenv host hp db p1 p2 env.freshPw1 env.freshPw2)),
        trace := (s.trace ++
          [.write (S ".env") (generate_dotenv host hp db p1 p2 env.freshPw1 env.freshPw2)]) ++
          [.log .success (S ".env file created")] }) := by
  unfold Actions.create_dotenv
  simp only [bindM_eq]
  rw [mbind_ok (existsM_absent h)]
  rw [mbind_ok (isdirM_absent h)]
  rw [if_neg (by decide)]
  rw [mbind_ok (isfileM_absent h)]
  rw [if_neg (by decide)]
  rw [mbind_ok (show askEnv env s = (.ok env, s) from rfl)]
  rw [mbind_ok (writeFileM_absent_ok hw h)]
  rfl

theorem create_nginx_conf_dir {host : Str} {hp : PyVal} {ih : Str} {env : Env} {s : St}
    (h : fsGet s.fs (host ++ S ".nginx.conf") = .dir) :
    Actions.create_nginx_conf host hp ih env s =
      (.assertFail (host ++ S ".nginx.conf is a directory"), s) := by
  unfold Actions.create_nginx_conf
  simp only [bindM_eq]
  rw [mbind_ok (existsM_dir h)]
  rw [mbind_ok (isdirM_dir h)]
  rfl

theorem create_nginx_conf_file {host : Str} {hp : PyVal} {ih : Str} {env : Env} {s : St}
    {c : Str}
    (h : fsGet s.fs (host ++ S ".nginx.conf") = .file c) :
    Actions.create_nginx_conf host hp ih env s = (.ok (),
      { s with trace := s.trace ++
        [.log .warn (host ++ S ".nginx.conf already exists, skipping")] }) := by
  unfold Actions.create_nginx_conf
  simp only [bindM_eq]
  rw [mbind_ok (existsM_file h)]
  rw [mbind_ok (isdirM_file h)]
  rw [if_neg (by decide)]
  rw [mbind_ok (isfileM_file h)]
  rfl

theorem create_nginx_conf_absent {host : Str} {hp : PyVal} {ih : Str} {env : Env} {s : St}
    (hw : env.writable = true)
    (h : fsGet s.fs (host ++ S ".nginx.conf") = .absent) :
    Actions.create_nginx_conf host hp ih env s = (.ok (),
      { s with
        fs := fsSet s.fs (host ++ S ".nginx.conf") (.file (generate_nginx_conf host hp ih)),
        trace := (s.trace ++
          [.write (host ++ S ".nginx.conf") (generate_nginx_conf host hp ih)]) ++
          [.log .success (S "Nginx configuration created")] }) := by
  unfold Actions.create_nginx_conf
  simp only [bindM_eq]
  rw [mbind_ok (existsM_absent h)]
  rw [mbind_ok (isdirM_absent h)]
  rw [if_neg (by decide)]
  rw [mbind_ok (isfileM_absent h)]
  rw [if_neg (by decide)]
  rw [mbind_ok (writeFileM_absent_ok hw h)]
  rfl

theorem create_dotgitignore_dir {db : Str} {env : Env} {s : St}
    (h : fsGet s.fs (S ".gitignore") = .dir) :
    Actions.create_dotgitignore db env s =
      (.assertFail (S ".gitignore is a directory"), s) := by
  unfold Actions.create_dotgitignore
  simp only [bindM_eq]
  rw [mbind_ok (existsM_dir h)]
  rw [mbind_ok (isdirM_dir h)]
  rfl

theorem create_dotgitignore_file_contains {db : Str} {env : Env} {s : St} {old : Str}
    (h : fsGet s.fs (S ".gitignore") = .file old)
    (hc : pyContains old db = true) :
    Actions.create_dotgitignore db env s = (.ok (),
      { s with trace := (s.trace ++ [.readF (S ".gitignore")]) ++
        [.log .warn (S "Database mount folder already ignored")] }) := by
  unfold Actions.create_dotgitignore
  simp only [bindM_eq]
  rw [mbind_ok (existsM_file h)]
  rw [mbind_ok (isdirM_file h)]
  rw [if_neg (by decide)]
  rw [mbind_ok (isfileM_file h)]
  rw [if_pos (by decide)]
  rw [mbind_ok (readFileM_file h)]
  rw [hc]
  rw [if_pos rfl]
  rfl

theorem create_dotgitignore_file_append {db : Str} {env : Env} {s : St} {old : Str}
    (hw : env.writable = true)
    (h : fsGet s.fs (S ".gitignore") = .file old)
    (hc : pyContains old db = false) :
    Actions.create_dotgitignore db env s = (.ok (),
      { s with
        fs := fsSet s.fs (S ".gitignore") (.file (old ++ ('\n' :: generate_dotgitignore db))),
        trace := (((s.trace ++ [.readF (S ".gitignore")]) ++
          [.log .info (S "Appending to .gitignore")]) ++
          [.append (S ".gitignore") ('\n' :: generate_dotgitignore db)]) ++
          [.log .success (S ".gitignore created")] }) := by
  unfold Actions.create_dotgitignore
  simp only [bindM_eq]
  rw [mbind_ok (existsM_file h)]
  rw [mbind_ok (isdirM_file h)]
  rw [if_neg (by decide)]
  rw [mbind_ok (isfileM_file h)]
  rw [if_pos (by decide)]
  rw [mbind_ok (readFileM_file h)]
  rw [hc]
  rw [if_neg (by decide)]
  rw [mbind_ok (logM_eval .info (S "Appending to .gitignore") env _)]
  rw [mbind_ok (appendFileM_file_ok hw (fsGet_st h))]
  rfl

theorem create_dotgitignore_absent {db : Str} {env : Env} {s : St}
    (hw : env.writable = true)
    (h : fsGet s.fs (S ".gitignore") = .absent) :
    Actions.create_dotgitignore db env s = (.ok (),
      { s with
        fs := fsSet s.fs (S ".gitignore") (.file (generate_dotgitignore db)),
        trace := (s.trace ++ [.write (S ".gitignore") (generate_dotgitignore db)]) ++
          [.log .success (S ".gitignore created")] }) := by
  unfold Actions.create_dotgitignore
  simp only [bindM_eq]
  rw [mbind_ok (existsM_absent h)]
  rw [mbind_ok (isdirM_absent h)]
  rw [if_neg (by decide)]
  rw [mbind_ok (isfileM_absent h)]
  rw [if_neg (by decide)]
  rw [mbind_ok (writeFileM_absent_ok hw h)]
  rfl

theorem create_dotgitignore_twice {db : Str} {env : Env} {s : St} {old : Str}
    (hw : env.writable = true)
    (h : fsGet s.fs (S ".gitignore") = .file old) :
    (Actions.create_dotgitignore db env
      ((Actions.create_dotgitignore db env s).2)).2.fs =
    (Actions.create_dotgitignore db env s).2.fs := by
  cases hc : pyContains old db with
  | false =>
      rw [create_dotgitignore_file_append hw h hc]
      dsimp only
      rw [create_dotgitignore_file_contains
        (show fsGet ({ s with
            fs := fsSet s.fs (S ".gitignore")
              (.file (old ++ ('\n' :: generate_dotgitignore db))),
            trace := (((s.trace ++ [Effect.readF (S ".gitignore")]) ++
              [Effect.log .info (S "Appending to .gitignore")]) ++
              [Effect.append (S ".gitignore") ('\n' :: generate_dotgitignore db)]) ++
              [Effect.log .success (S ".gitignore created")] } : St).fs (S ".gitignore") =
          FsEntry.file (old ++ ('\n' :: generate_dotgitignore db)) from
          fsGet_fsSet_same s.fs (S ".gitignore")
            (.file (old ++ ('\n' :: generate_dotgitignore db))))
        (gitignore_append_contains old db)]
  | true =>
      rw [create_dotgitignore_file_contains h hc]
      dsimp only
      rw [create_dotgitignore_file_contains (fsGet_st h) hc]

/-- C6: each artifact materializer follows the uniform policy — a
directory at the target path raises the fatal AssertionError with the
state untouched; an existing regular file is left unchanged with only a
skip warning; an absent path gets the rendered text written — except
`.gitignore`, which on an existing file appends its stanza exactly when
the mount folder is not yet referenced, and running it again never
changes the file system a second time (the appended stanza makes the
mount folder referenced). -/
theorem c6_materialize_policy :
    (∀ env s, fsGet s.fs (S "docker-compose.yml") = .dir →
      Actions.create_docker_compose env s =
        (.assertFail (S "docker-compose.yml is a directory"), s)) ∧
    (∀ env s c, fsGet s.fs (S "docker-compose.yml") = .file c →
      Actions.create_docker_compose env s = (.ok (),
        { s with trace := s.trace ++
          [.log .warn (S "docker-compose.yml already exists, skipping")] })) ∧
    (∀ env s, env.writable = true → fsGet s.fs (S "docker-compose.yml") = .absent →
      (Actions.create_docker_compose env s).1 = .ok () ∧
      (Actions.create_docker_compose env s).2.fs =
        fsSet s.fs (S "docker-compose.yml") (.file generate_docker_compose)) ∧
    (∀ host hp db p1 p2 env s, fsGet s.fs (S ".env") = .dir →
      Actions.create_dotenv host hp db p1 p2 env s =
        (.assertFail (S ".env is a directory"), s)) ∧
    (∀ host hp db p1 p2 env s c, fsGet s.fs (S ".env") = .file c →
      Actions.create_dotenv host hp db p1 p2 env s = (.ok (),
        { s with trace := s.trace ++
          [.log .warn (S ".env file already exists, skipping")] })) ∧
    (∀ host hp db p1 p2 env s, env.writable = true → fsGet s.fs (S ".env") = .absent →
      (Actions.create_dotenv host hp db p1 p2 env s).1 = .ok () ∧
      (Actions.create_dotenv host hp db p1 p2 env s).2.fs =
        fsSet s.fs (S ".env")
          (.file (generate_dotenv host hp db p1 p2 env.freshPw1 env.freshPw2))) ∧
    (∀ host hp ih env s, fsGet s.fs (host ++ S ".nginx.conf") = .dir →
      Actions.create_nginx_conf host hp ih env s =
        (.assertFail (host ++ S ".nginx.conf is a directory"), s)) ∧
    (∀ host hp ih env s c, fsGet s.fs (host ++ S ".nginx.conf") = .file c →
      Actions.create_nginx_conf host hp ih env s = (.ok (),
        { s with trace := s.trace ++
          [.log .warn (host ++ S ".nginx.conf already exists, skipping")] })) ∧
    (∀ host hp ih env s, env.writable = true →
      fsGet s.fs (host ++ S ".nginx.conf") = .absent →
      (Actions.create_nginx_conf host hp ih env s).1 = .ok () ∧
      (Actions.create_nginx_conf host hp ih env s).2.fs =
        fsSet s.fs (host ++ S ".nginx.conf") (.file (generate_nginx_conf host hp ih))) ∧
    (∀ db env s, fsGet s.fs (S ".gitignore") = .dir →
      Actions.create_dotgitignore db env s =
        (.assertFail (S ".gitignore is a directory"), s)) ∧
    (∀ db env s old, fsGet s.fs (S ".gitignore") = .file old →
      pyContains old db = true →
      Actions.create_dotgitignore db env s = (.ok (),
        { s with trace := (s.trace ++ [.readF (S ".gitignore")]) ++
          [.log .warn (S "Database mount folder already ignored")] })) ∧
    (∀ db env s old, env.writable = true → fsGet s.fs (S ".gitignore") = .file old →
      pyContains old db = false →
      (Actions.create_dotgitignore db env s).1 = .ok () ∧
      (Actions.create_dotgitignore db env s).2.fs =
        fsSet s.fs (S ".gitignore")
          (.file (old ++ ('\n' :: generate_dotgitignore db)))) ∧
    (∀ db env s, env.writable = true → fsGet s.fs (S ".gitignore") = .absent →
      (Actions.create_dotgitignore db env s).1 = .ok () ∧
      (Actions.create_dotgitignore db env s).2.fs =
        fsSet s.fs (S ".gitignore") (.file (generate_dotgitignore db))) ∧
    (∀ db env s old, env.writable = true → fsGet s.fs (S ".gitignore") = .file old →
      (Actions.create_dotgitignore db env
        ((Actions.create_dotgitignore db env s).2)).2.fs =
      (Actions.create_dotgitignore db env s).2.fs) := by
  refine ⟨?_, ?_, ?_, ?_, ?_, ?_, ?_, ?_, ?_, ?_, ?_, ?_, ?_, ?_⟩
  · intro env s h
    exact create_docker_compose_dir h
  · intro env s c h
    exact create_docker_compose_file h
  · intro env s hw h
    rw [create_docker_compose_absent hw h]
    exact ⟨rfl, rfl⟩
  · intro host hp db p1 p2 env s h
    exact create_dotenv_dir h
  · intro host hp db p1 p2 env s c h
    exact create_dotenv_file h
  · intro host hp db p1 p2 env s hw h
    rw [create_dotenv_absent hw h]
    exact ⟨rfl, rfl⟩
  · intro host hp ih env s h
    exact create_nginx_conf_dir h
  · intro host hp ih env s c h
    exact create_nginx_conf_file h
  · intro host hp ih env s hw h
    rw [create_nginx_conf_absent hw h]
    exact ⟨rfl, rfl⟩
  · intro db env s h
    exact create_dotgitignore_dir h
  · intro db env s old h hc
    exact create_dotgitignore_file_contains h hc
  · intro db env s old hw h hc
    rw [create_dotgitignore_file_append hw h hc]
    exact ⟨rfl, rfl⟩
  · intro db env s hw h
    rw [create_dotgitignore_absent hw h]
    exact ⟨rfl, rfl⟩
  · intro db env s old hw h
    exact create_dotgitignore_twice hw h

set_option maxRecDepth 4000 in
theorem c6_materialize_policy_witness :
    Actions.create_docker_compose envAllOk stAllDirs =
      (.assertFail (S "docker-compose.yml is a directory"), stAllDirs) ∧
    Actions.create_docker_compose envAllOk stAllFiles = (.ok (),
      { stAllFiles with trace :=
        [.log .warn (S "docker-compose.yml already exists, skipping")] }) ∧
    (Actions.create_docker_compose envAllOk emptySt).1 = .ok () ∧
    Actions.create_dotenv (S "localhost") (.i 8080) (S "db_data")
        (some (S "pw1")) (some (S "pw2")) envAllOk stAllDirs =
      (.assertFail (S ".env is a directory"), stAllDirs) ∧
    (Actions.create_dotenv (S "localhost") (.i 8080) (S "db_data")
        (some (S "pw1")) (some (S "pw2")) envAllOk emptySt).1 = .ok () ∧
    Actions.create_nginx_conf (S "localhost") (.i 8080) (S "localhost") envAllOk stAllDirs =
      (.assertFail (S "localhost.nginx.conf is a directory"), stAllDirs) ∧
    (Actions.create_nginx_conf (S "localhost") (.i 8080) (S "localhost") envAllOk emptySt).1 =
      .ok () ∧
    Actions.create_dotgitignore (S "db_data") envAllOk stAllDirs =
      (.assertFail (S ".gitignore is a directory"), stAllDirs) ∧
    Actions.create_dotgitignore (S "db_data") envAllOk stAllFiles = (.ok (),
      { stAllFiles with trace := [.readF (S ".gitignore"),
        .log .warn (S "Database mount folder already ignored")] }) ∧
    (Actions.create_dotgitignore (S "zzz") envAllOk stAllFiles).1 = .ok () ∧
    (Actions.create_dotgitignore (S "db_data") envAllOk emptySt).1 = .ok () ∧
    (Actions.create_dotgitignore (S "zzz") envAllOk
      ((Actions.create_dotgitignore (S "zzz") envAllOk stAllFiles).2)).2.fs =
    (Actions.create_dotgitignore (S "zzz") envAllOk stAllFiles).2.fs := by
  obtain ⟨h1, h2, h3, h4, h5, h6, h7, h8, h9, h10, h11, h12, h13, h14⟩ :=
    c6_materialize_policy
  refine ⟨h1 envAllOk stAllDirs (by decide), ?_, (h3 envAllOk emptySt rfl (by decide)).1,
    h4 (S "localhost") (.i 8080) (S "db_data") (some (S "pw1")) (some (S "pw2"))
      envAllOk stAllDirs (by decide),
    (h6 (S "localhost") (.i 8080) (S "db_data") (some (S "pw1")) (some (S "pw2"))
      envAllOk emptySt rfl (by decide)).1,
    h7 (S "localhost") (.i 8080) (S "localhost") envAllOk stAllDirs (by decide),
    (h9 (S "localhost") (.i 8080) (S "localhost") envAllOk emptySt rfl (by decide)).1,
    h10 (S "db_data") envAllOk stAllDirs (by decide), ?_,
    (h12 (S "zzz") envAllOk stAllFiles (S "db_data") rfl (by decide) (by decide)).1,
    (h13 (S "db_data") envAllOk emptySt rfl (by decide)).1,
    h14 (S "zzz") envAllOk stAllFiles (S "db_data") rfl (by decide)⟩
  · rw [h2 envAllOk stAllFiles (S "x") (by decide)]
    rfl
  · rw [h11 (S "db_data") envAllOk stAllFiles (S "db_data") (by decide) (by decide)]
    rfl

theorem mbind_mpure {α β : Type} (a : α) (f : α → M β) : mbind (mpure a) f = f a := rfl

theorem configure_dotenv_overrides_cli {sil : Bool} {args : Actions.Args} {install : Bool}
    {env : Env} {s : St} {content : Str} {d : Dict} {v : Str} {k : Int}
    (hf : fsGet s.fs (S ".env") = .file content)
    (hparse : read_dotenv content = .ok d)
    (hport : dictGet? d (S "host_port") = some (.s v))
    (hint : pyInt v = some k)
    (hinter : args.interactive = false) :
    (Actions.configure sil args install env s).1 =
      .ok (dictSet d (S "host_port") (.i k)) := by
  unfold Actions.configure
  simp only [bindM_eq]
  rw [mbind_ok (show askEnv env s = (.ok env, s) from rfl)]
  rw [mbind_ok (existsM_file hf)]
  rw [mbind_ok (isfileM_file hf)]
  rw [if_pos (show (true && true) = true from rfl)]
  rw [mbind_ok (logM_eval .info (S ".env file found!") env _)]
  rw [mbind_ok (readFileM_file (fsGet_st hf))]
  rw [hparse]
  dsimp only
  rw [mbind_mpure]
  rw [mbind_ok (logM_eval .success (S "Read .env file") env _)]
  rw [mbind_mpure]
  dsimp only
  rw [hport]
  dsimp only
  rw [hint]
  dsimp only
  rw [mbind_mpure]
  rw [hinter]
  rfl

theorem configure_no_dotenv_uses_cli {sil : Bool} {args : Actions.Args} {install : Bool}
    {env : Env} {s : St}
    (hf : fsGet s.fs (S ".env") = .absent)
    (hinter : args.interactive = false) :
    (Actions.configure sil args install env s).1 = .ok
      [(S "hostname", .s args.hostname), (S "host_port", .i args.host_port),
       (S "db_mnt", .s args.db_mnt),
       (S "db_passwd", .s (args.db_passwd.getD env.freshPw1)),
       (S "db_root_passwd", .s (args.db_root_passwd.getD env.freshPw2))] := by
  unfold Actions.configure
  simp only [bindM_eq]
  rw [mbind_ok (show askEnv env s = (.ok env, s) from rfl)]
  rw [mbind_ok (existsM_absent hf)]
  rw [mbind_ok (isfileM_absent hf)]
  rw [if_neg (by decide)]
  rw [hinter]
  cases install
  · rfl
  · rfl

set_option maxRecDepth 4000 in
/-- C1 counterexample: with a persisted `.env` present, an explicitly
supplied `--hostname cli.example` is ignored — the resulting
configuration carries the persisted hostname. -/
theorem c1_priority_counterexample :
    argsC1.hostname = S "cli.example" ∧
    fsGet stWithDotenv.fs (S ".env") = .file dotenvPersisted ∧
    (match (Actions.configure false argsC1 false envAllOk stWithDotenv).1 with
     | .ok d => dictGet? d (S "hostname")
     | _ => none) = some (.s (S "persisted.example")) := by
  decide

/-- C1 (amended): the configuration sources actually merge as
defaults < CLI flags < persisted `.env` < interactive answers — when a
parsable `.env` file exists its contents replace the CLI record
wholesale (only the port is re-converted to `int`); the CLI record
(argparse defaults plus explicit flags) is used only when no `.env`
exists; and interactive mode, when requested, replaces the record with
the operator's answers. -/
theorem c1_priority_amended :
    (∀ sil args install env s content d v k,
      fsGet s.fs (S ".env") = FsEntry.file content →
      read_dotenv content = .ok d →
      dictGet? d (S "host_port") = some (.s v) →
      pyInt v = some k →
      args.interactive = false →
      (Actions.configure sil args install env s).1 =
        .ok (dictSet d (S "host_port") (.i k))) ∧
    (∀ sil args install env s,
      fsGet s.fs (S ".env") = FsEntry.absent →
      args.interactive = false →
      (Actions.configure sil args install env s).1 = .ok
        [(S "hostname", .s args.hostname), (S "host_port", .i args.host_port),
         (S "db_mnt", .s args.db_mnt),
         (S "db_passwd", .s (args.db_passwd.getD env.freshPw1)),
         (S "db_root_passwd", .s (args.db_root_passwd.getD env.freshPw2))]) ∧
    ((match (Actions.configure false argsC1i false envAllOk stC1i).1 with
      | .ok d => some d
      | _ => none) =
      some [(S "hostname", .s (S "host.example")), (S "host_port", .i 8081),
            (S "db_mnt", .s (S "mnt")), (S "db_passwd", .s (S "pw")),
            (S "db_root_passwd", .s (S "rpw"))]) := by
  refine ⟨?_, ?_, by decide⟩
  · intro sil args install env s content d v k hf hparse hport hint hinter
    exact configure_dotenv_overrides_cli hf hparse hport hint hinter
  · intro sil args install env s hf hinter
    exact configure_no_dotenv_uses_cli hf hinter

set_option maxRecDepth 4000 in
theorem c1_priority_amended_witness :
    (Actions.configure false argsC1 false envAllOk stWithDotenv).1 =
      .ok (dictSet
        [(S "db_mnt", .s (S "db_data")), (S "db_root_passwd", .s (S "rootpw")),
         (S "db_passwd", .s (S "userpw")), (S "host_port", .s (S "9090")),
         (S "hostname", .s (S "persisted.example"))]
        (S "host_port") (.i 9090)) ∧
    (Actions.configure false argsC1 false envAllOk emptySt).1 = .ok
      [(S "hostname", .s (S "cli.example")), (S "host_port", .i 8080),
       (S "db_mnt", .s (S "db_data")), (S "db_passwd", .s (S "tok1")),
       (S "db_root_passwd", .s (S "tok2"))] := by
  obtain ⟨hA, hB, _⟩ := c1_priority_amended
  constructor
  · exact hA false argsC1 false envAllOk stWithDotenv dotenvPersisted
      [(S "db_mnt", .s (S "db_data")), (S "db_root_passwd", .s (S "rootpw")),
       (S "db_passwd", .s (S "userpw")), (S "host_port", .s (S "9090")),
       (S "hostname", .s (S "persisted.example"))]
      (S "9090") 9090 (by decide) (by rfl) (by decide) (by decide) rfl
  · exact hB false argsC1 false envAllOk emptySt rfl rfl

theorem type_convertable_true {sil : Bool} {arg : Str} {T : PyType}
    {regex : Option (Str → Bool)} {env : Env} {s : St}
    (h : typeConvertable arg T regex = true) :
    Checks.type_convertable sil arg T regex env s = (.ok true, s) := by
  unfold Checks.type_convertable
  refine @runCheck_true_noprint sil .throwError _ env s s (S "") ?_
  show mpure _ env s = _
  rw [h]
  rfl

theorem type_convertable_false {sil : Bool} {arg : Str} {T : PyType}
    {regex : Option (Str → Bool)} {env : Env} {s : St}
    (h : typeConvertable arg T regex = false) :
    Checks.type_convertable sil arg T regex env s =
      (.assertFail (S "Argument is not convertable to the target type"),
       { s with trace := s.trace ++
         [.log .error (S "Argument is not convertable to the target type")] }) := by
  unfold Checks.type_convertable
  refine @runCheck_throwError_false sil false _ env s s _ ?_
  show mpure _ env s = _
  rw [h]
  rfl

theorem tame_convert_argument (sil : Bool) (arg : Str) (T : PyType)
    (regex : Option (Str → Bool)) : Tame (Actions.convert_argument sil arg T regex) := by
  intro env s
  unfold Actions.convert_argument
  simp only [bindM_eq]
  cases hb : typeConvertable arg T regex with
  | false =>
      rw [mbind_assertFail (type_convertable_false hb)]
      exact ⟨fun n h => Outcome.noConfusion h, rfl,
        [.log .error (S "Argument is not convertable to the target type")], rfl, rfl⟩
  | true =>
      rw [mbind_ok (type_convertable_true hb)]
      rw [mbind_ok (perform_ok (by
        rw [andAllM_cons_true (show mpure true env s = (.ok true, s) from rfl)]
        exact andAllM_nil env s))]
      cases hc : convertArgument? arg T regex with
      | some v =>
          exact ⟨fun n h => Outcome.noConfusion h, rfl, [], trace_ext_nil rfl, rfl⟩
      | none =>
          exact ⟨fun n h => Outcome.noConfusion h, rfl, [], trace_ext_nil rfl, rfl⟩

theorem tame_getUserInputGo (sil : Bool) (T : PyType) (p : Str)
    (regex : Option (Str → Bool)) :
    ∀ fuel, Tame (Actions.getUserInputGo sil T p regex fuel)
  | 0 => tame_mbind (tame_inputM p) (fun _ => tame_pyRaise _)
  | fuel + 1 =>
      tame_tryCatchAssert
        (tame_mbind (tame_inputM p) (fun a => tame_convert_argument sil a T regex))
        (fun _ => tame_mbind (tame_logM .error (S "Invalid input"))
          (fun _ => tame_getUserInputGo sil T p regex fuel))

theorem tame_get_user_input (sil : Bool) (T : PyType) (p : Str)
    (regex : Option (Str → Bool)) : Tame (Actions.get_user_input sil T p regex) := by
  intro env s
  exact tame_getUserInputGo sil T p regex (s.answers.length + 1) env s

theorem tame_configure_interactive (sil : Bool) (d : Dict) :
    Tame (Actions.configure_interactive sil d) :=
  tame_mbind (tame_get_user_input sil .str (S "Hostname: ") (some hostnameMatch)) fun _ =>
  tame_mbind (tame_get_user_input sil .int (S "host_port: ") (some portMatch)) fun _ =>
  tame_mbind (tame_get_user_input sil .str (S "Mount folder: ") (some pathMatch)) fun _ =>
  tame_mbind (tame_get_user_input sil .str (S "Database password: ") none) fun _ =>
  tame_mbind (tame_get_user_input sil .str (S "Database root password: ") none) fun _ =>
  tame_mpure _

theorem tame_configure (sil : Bool) (args : Actions.Args) (install : Bool) :
    Tame (Actions.configure sil args install) := by
  unfold Actions.configure
  refine tame_mbind tame_askEnv (fun env' => ?_)
  refine tame_mbind (tame_existsM _) (fun e => ?_)
  refine tame_mbind (tame_isfileM _) (fun f => ?_)
  have hjp : ∀ existing : Dict, Tame (do
      let hp ← (match dictGet? existing (S "host_port") with
                | some (.i k) => mpure k
                | some (.s v) => (match pyInt v with
                                  | some k => mpure k
                                  | none => pyRaise (S "ValueError"))
                | none => pyRaise (S "KeyError"))
      let existing := dictSet existing (S "host_port") (.i hp)
      let existing ← if args.interactive then do
          logM .info (S "Entering interactive mode...")
          Actions.configure_interactive sil existing
        else mpure existing
      if e || install then
        logM .info (Actions.cfgSummary existing)
      mpure existing : M Dict) := by
    intro existing
    refine tame_mbind ?_ (fun hp => ?_)
    · cases dictGet? existing (S "host_port") with
      | none => exact tame_pyRaise _
      | some v =>
          cases v with
          | i k => exact tame_mpure _
          | s v2 =>
              dsimp only
              cases pyInt v2 with
              | some k => exact tame_mpure _
              | none => exact tame_pyRaise _
    refine tame_ite (args.interactive = true) ?_ ?_
    · exact tame_mbind (tame_logM _ _) (fun _ =>
        tame_mbind (tame_configure_interactive sil _) (fun y =>
          tame_ite ((e || install) = true)
            (tame_mbind (tame_logM _ _) (fun _ => tame_mpure _))
            (tame_mbind (tame_mpure _) (fun _ => tame_mpure _))))
    · exact tame_mbind (tame_mpure _) (fun y =>
        tame_ite ((e || install) = true)
          (tame_mbind (tame_logM _ _) (fun _ => tame_mpure _))
          (tame_mbind (tame_mpure _) (fun _ => tame_mpure _)))
  refine tame_ite ((e && f) = true) ?_ (tame_mbind (tame_mpure _) (fun y => hjp y))
  refine tame_mbind (tame_logM _ _) (fun _ => ?_)
  refine tame_mbind (tame_readFileM _) (fun content => ?_)
  refine tame_mbind ?_ (fun d => tame_mbind (tame_logM _ _)
    (fun _ => tame_mbind (tame_mpure _) (fun y => hjp y)))
  cases read_dotenv content with
  | ok d => exact tame_mpure _
  | error m => exact tame_raiseA _

theorem conflicting_args_fail {sil : Bool} {env : Env} {s : St} {flags : List Bool}
    (h : flags.countP id > 1) :
    Checks.conflicting_args sil flags env s =
      (.assertFail (S "Conflicting arguments"),
       { s with trace := s.trace ++ [.log .error (S "Conflicting arguments")] }) := by
  unfold Checks.conflicting_args
  refine @runCheck_throwError_false sil false _ env s s _ ?_
  show mpure _ env s = _
  rw [if_pos h]
  rfl

theorem conflicting_args_pass {sil : Bool} {env : Env} {s : St} {flags : List Bool}
    (h : ¬(flags.countP id > 1)) :
    Checks.conflicting_args sil flags env s = (.ok true, s) := by
  unfold Checks.conflicting_args
  refine @runCheck_true_noprint sil .throwError _ env s s
    (S "No conflicting arguments") ?_
  show mpure _ env s = _
  rw [if_neg h]
  rfl

theorem props_mbind {α β : Type} {x : M α} {f : α → M β} {env : Env} {s : St}
    (hx : Tame x)
    (hf : ∀ a s', s'.fs = s.fs →
      (∃ t, s'.trace = s.trace ++ t ∧ t.all benign = true) →
      (∀ u, (f a env s').1 ≠ .ok u) ∧ (∀ n, (f a env s').1 ≠ .exited n) ∧
      (f a env s').2.fs = s.fs ∧
      ∃ t, (f a env s').2.trace = s.trace ++ t ∧ t.all benign = true) :
    (∀ u, (mbind x f env s).1 ≠ .ok u) ∧ (∀ n, (mbind x f env s).1 ≠ .exited n) ∧
    (mbind x f env s).2.fs = s.fs ∧
    ∃ t, (mbind x f env s).2.trace = s.trace ++ t ∧ t.all benign = true := by
  obtain ⟨hxe, hxf, t1, hxt, hxb⟩ := hx env s
  unfold mbind
  cases hox : x env s with
  | mk o s1 =>
      rw [hox] at hxe hxf hxt
      cases o with
      | ok a => exact hf a s1 hxf ⟨t1, hxt, hxb⟩
      | exited n => exact absurd rfl (hxe n)
      | assertFail m =>
          exact ⟨fun u hu => Outcome.noConfusion hu, fun n hn => Outcome.noConfusion hn,
            hxf, t1, hxt, hxb⟩
      | exc m =>
          exact ⟨fun u hu => Outcome.noConfusion hu, fun n hn => Outcome.noConfusion hn,
            hxf, t1, hxt, hxb⟩

theorem mainRun_fail_frame {args : Actions.Args} {env : Env} {s : St}
    (hok : ∀ u, (mainBody args env s).1 ≠ .ok u)
    (hex : ∀ n, (mainBody args env s).1 ≠ .exited n)
    (hfs : (mainBody args env s).2.fs = s.fs)
    (ht : ∃ t, (mainBody args env s).2.trace = s.trace ++ t ∧ t.all benign = true) :
    (mainRun args env s).1 = .exited 1 ∧
    (mainRun args env s).2.fs = s.fs ∧
    ∃ t, (mainRun args env s).2.trace = s.trace ++ t ∧ t.all benign = true := by
  unfold mainRun
  cases hm : mainBody args env s with
  | mk o s1 =>
      rw [hm] at hok hex hfs ht
      obtain ⟨t, ht1, hb1⟩ := ht
      cases o with
      | ok u => exact absurd rfl (hok u)
      | exited n => exact absurd rfl (hex n)
      | assertFail m =>
          refine ⟨rfl, hfs, t ++ [.log .error (S "Assertion failed: " ++ m)], ?_, ?_⟩
          · show s1.trace ++ _ = _
            rw [ht1, List.append_assoc]
          · rw [List.all_append, hb1]
            rfl
      | exc m =>
          refine ⟨rfl, hfs, t ++ [.log .error (S "An error occurred: " ++ m)], ?_, ?_⟩
          · show s1.trace ++ _ = _
            rw [ht1, List.append_assoc]
          · rw [List.all_append, hb1]
            rfl

theorem mainBody_conflict_props {args : Actions.Args} {env : Env} {s : St}
    (h : (args.install = true ∧ args.uninstall = true) ∨
         (args.uninstall = true ∧ args.certbot = true)) :
    (∀ u, (mainBody args env s).1 ≠ .ok u) ∧
    (∀ n, (mainBody args env s).1 ≠ .exited n) ∧
    (mainBody args env s).2.fs = s.fs ∧
    ∃ t, (mainBody args env s).2.trace = s.trace ++ t ∧ t.all benign = true := by
  refine props_mbind (tame_configure _ _ _) ?_
  intro options s' hfs' hts'
  obtain ⟨t', ht', hb'⟩ := hts'
  simp only [bindM_eq]
  rcases h with ⟨hi, hu⟩ | ⟨hu, hc⟩
  · rw [hi, hu]
    rw [mbind_assertFail (conflicting_args_fail (by decide))]
    refine ⟨fun u hu2 => Outcome.noConfusion hu2, fun n hn => Outcome.noConfusion hn,
      hfs', t' ++ [.log .error (S "Conflicting arguments")], ?_, ?_⟩
    · show s'.trace ++ _ = _
      rw [ht', List.append_assoc]
    · rw [List.all_append, hb']
      rfl
  · cases hi2 : args.install with
    | true =>
        rw [hu]
        rw [mbind_assertFail (conflicting_args_fail (by decide))]
        refine ⟨fun u hu2 => Outcome.noConfusion hu2, fun n hn => Outcome.noConfusion hn,
          hfs', t' ++ [.log .error (S "Conflicting arguments")], ?_, ?_⟩
        · show s'.trace ++ _ = _
          rw [ht', List.append_assoc]
        · rw [List.all_append, hb']
          rfl
    | false =>
        rw [hu, hc]
        rw [mbind_ok (conflicting_args_pass (by decide))]
        rw [mbind_assertFail (conflicting_args_fail (by decide))]
        refine ⟨fun u hu2 => Outcome.noConfusion hu2, fun n hn => Outcome.noConfusion hn,
          hfs', t' ++ [.log .error (S "Conflicting arguments")], ?_, ?_⟩
        · show s'.trace ++ _ = _
          rw [ht', List.append_assoc]
        · rw [List.all_append, hb']
          rfl

/-- C4: invoking the script with both `--install` and `--uninstall`
set, or with both `--uninstall` and `--certbot` set, makes the
conflicting-arguments check raise after `configure` returns, and the
process exits with status 1 with the file system untouched and with no
external tool invoked and no file written (every emitted effect is a
log, prompt or file read). -/
theorem c4_mutual_exclusion (args : Actions.Args) (env : Env) (s : St)
    (h : (args.install = true ∧ args.uninstall = true) ∨
         (args.uninstall = true ∧ args.certbot = true)) :
    (mainRun args env s).1 = .exited 1 ∧
    (mainRun args env s).2.fs = s.fs ∧
    ∃ t, (mainRun args env s).2.trace = s.trace ++ t ∧ t.all benign = true := by
  obtain ⟨hok, hex, hfs, ht⟩ := mainBody_conflict_props h
  exact mainRun_fail_frame hok hex hfs ht

theorem c4_mutual_exclusion_witness :
    (mainRun argsConflictIU envAllOk emptySt).1 = .exited 1 ∧
    (mainRun argsConflictIU envAllOk emptySt).2.fs = emptySt.fs ∧
    ∃ t, (mainRun argsConflictIU envAllOk emptySt).2.trace = emptySt.trace ++ t ∧
      t.all benign = true :=
  c4_mutual_exclusion argsConflictIU envAllOk emptySt (Or.inl ⟨rfl, rfl⟩)
